import Mathlib

/-!
# terraform-provider-netbox: the framework (v6) site and virtual-machine resources

A shallow embedding of `netbox/resource_netbox_site_v6.go`,
`netbox/resource_netbox_virtual_machine_v6.go`, `netbox/tags_v6.go`,
`netbox/utils_v6.go` and `netbox/provider_plugin.go`.

Conventions of the embedding

* A Go pointer `*T` is `Option T` (`none` is `nil`).
* A terraform-plugin-framework attribute value (`types.String`, `types.Int64`,
  `types.Float64`, `types.Set`) is a `TFValue`: null, unknown or known.
* `int64` is `Int`: the code only copies integers, it never computes on them.
* `float64` is carried by its bit pattern: the code only copies floats.
* A handler `func (r *R) Op(ctx, request, response *Response)` is a function from
  the request and the response as the framework hands it in, to a `Run`: the list
  of remote calls issued, and either the response on return or a Go panic.
* The go-netbox client is a record of functions, one per endpoint used; a call
  returns the Go pair `(res, err)`.
* The validators of a schema are data (`StringValidator`); what they check is the
  behaviour of the validator library. `os.Getenv` is a function `getenv`, and the
  method `Config.Client()`, which is not part of these sources, is a parameter.
* `State.Get(ctx, &data)` and `Plan.Get(ctx, &data)` yield the decoded model and
  the diagnostics of decoding (`Stored`). `State.Set(ctx, &data)` and
  `types.SetValueFrom` of an `[]int64` return no diagnostics: the models carry the
  types of the schema.
-/

namespace Netbox

/-! ## terraform-plugin-framework values and diagnostics -/

/-- An attribute value of the plugin framework: null, unknown, or a known value. -/
inductive TFValue (α : Type) where
  | null : TFValue α
  | unknown : TFValue α
  | known (v : α) : TFValue α
  deriving DecidableEq, Repr

/-- Go `float64`, carried by its IEEE-754 bit pattern. -/
structure float64 where
  bits : Nat
  deriving DecidableEq, Repr

namespace TFValue

/-- `IsNull()`. -/
def IsNull {α : Type} : TFValue α → Bool
  | null => true
  | _ => false

/-- `ValueString()`: the known value, the empty string when null or unknown. -/
def ValueString : TFValue String → String
  | known v => v
  | _ => ""

/-- `ValueInt64()`: the known value, zero when null or unknown. -/
def ValueInt64 : TFValue Int → Int
  | known v => v
  | _ => 0

/-- `ValueStringPointer()`: nil when null, else a pointer to the stored value
(the zero value when unknown). -/
def ValueStringPointer : TFValue String → Option String
  | null => none
  | unknown => some ""
  | known v => some v

/-- `ValueInt64Pointer()`. -/
def ValueInt64Pointer : TFValue Int → Option Int
  | null => none
  | unknown => some 0
  | known v => some v

/-- `ValueFloat64Pointer()`. -/
def ValueFloat64Pointer : TFValue float64 → Option float64
  | null => none
  | unknown => some ⟨0⟩
  | known v => some v

end TFValue

/-- `types.StringValue`, `types.Int64Value`: a known value. -/
def types.Value {α : Type} (v : α) : TFValue α := TFValue.known v

/-- `types.StringPointerValue`, `types.Float64PointerValue`: null for nil, else known. -/
def types.PointerValue {α : Type} : Option α → TFValue α
  | none => TFValue.null
  | some v => TFValue.known v

/-- Severity of a diagnostic. -/
inductive Severity where
  | error
  | warning
  deriving DecidableEq, Repr

/-- One `diag.Diagnostic`. -/
structure Diagnostic where
  severity : Severity
  summary : String
  detail : String
  deriving DecidableEq, Repr

/-- `diag.Diagnostics` is a slice of diagnostics. -/
abbrev Diagnostics := List Diagnostic

/-- `Diagnostics.HasError()`. -/
def Diagnostics.HasError (diags : Diagnostics) : Bool :=
  diags.any (fun d => decide (d.severity = Severity.error))

/-- `Diagnostics.Append(in...)`: appends each diagnostic not already contained. -/
def Diagnostics.Append (diags : Diagnostics) (ins : List Diagnostic) : Diagnostics :=
  ins.foldl (fun acc d => if d ∈ acc then acc else acc ++ [d]) diags

/-- `Diagnostics.AddError(summary, detail)`: `Append` of a new error diagnostic. -/
def Diagnostics.AddError (diags : Diagnostics) (summary detail : String) : Diagnostics :=
  Diagnostics.Append diags [⟨Severity.error, summary, detail⟩]

/-- `tfsdk.State`, `tfsdk.Plan` as seen through `Get(ctx, &data)`: the decoded
model and the diagnostics that decoding returns. -/
structure Stored (α : Type) where
  data : α
  diags : List Diagnostic

/-- A `resource.XxxResponse`: the diagnostics and the state (`none` once
`State.RemoveResource` ran, or before anything was set). -/
structure Response (α : Type) where
  Diagnostics : Diagnostics
  State : Option α
  deriving DecidableEq, Repr

/-! ## go-netbox models -/

/-- `models.NestedTag` (the fields the provider fills). -/
structure NestedTag where
  Name : Option String
  Slug : Option String
  deriving DecidableEq, Repr

/-- `models.Tag` (the fields the provider reads). -/
structure Tag where
  Name : Option String
  Slug : Option String
  deriving DecidableEq, Repr

/-- Body of the tag list response: `Count *int64`, `Results []*Tag`. -/
structure TagsListBody where
  Count : Option Int
  Results : List Tag
  deriving DecidableEq, Repr

/-- `models.WritableSite` (the fields the provider fills). -/
structure WritableSite where
  Name : Option String
  Slug : Option String
  Status : String
  Description : String
  Facility : String
  Longitude : Option float64
  Latitude : Option float64
  PhysicalAddress : String
  ShippingAddress : String
  Region : Option Int
  Group : Option Int
  Tenant : Option Int
  Tags : List NestedTag
  TimeZone : Option String
  Asns : List Int
  deriving DecidableEq, Repr

/-- `models.NestedRegion`, `models.NestedSiteGroup`, `models.NestedTenant`,
`models.NestedCluster`, `models.NestedASN`: the provider reads only `ID`. -/
structure Nested where
  ID : Int
  deriving DecidableEq, Repr

/-- `models.SiteStatus`, `models.VirtualMachineWithConfigContextStatus`. -/
structure StatusLabel where
  Label : Option String
  Value : Option String
  deriving DecidableEq, Repr

/-- `models.Site` (the fields the provider reads). -/
structure Site where
  ID : Int
  Name : Option String
  Slug : Option String
  Status : Option StatusLabel
  Description : String
  Facility : String
  Longitude : Option float64
  Latitude : Option float64
  PhysicalAddress : String
  ShippingAddress : String
  Region : Option Nested
  Group : Option Nested
  Tenant : Option Nested
  TimeZone : Option String
  Asns : List Nested
  Tags : List NestedTag
  deriving DecidableEq, Repr

/-- `models.WritableVirtualMachineWithConfigContext` (the fields the provider fills). -/
structure WritableVirtualMachineWithConfigContext where
  Name : Option String
  Status : String
  Cluster : Option Int
  deriving DecidableEq, Repr

/-- `models.VirtualMachineWithConfigContext` (the fields the provider reads). -/
structure VirtualMachineWithConfigContext where
  ID : Int
  Name : Option String
  Cluster : Option Nested
  Status : Option StatusLabel
  deriving DecidableEq, Repr

/-! ## go-netbox client -/

/-- A Go `error` returned by the client: either the operation's typed
`*XxxDefault` response (any non-2xx HTTP status, with its code), or anything
else (a transport failure, a decoding failure). -/
inductive GoError where
  | Default (code : Int) (message : String)
  | other (message : String)
  deriving DecidableEq, Repr

/-- `err.Error()`. -/
def GoError.Error : GoError → String
  | Default _ m => m
  | other m => m

/-- The Go pair `(res, err)` a client call returns; `res` stands for the
response's payload, nil when the response pointer is nil. -/
structure CallResult (α : Type) where
  res : Option α
  err : Option GoError
  deriving DecidableEq, Repr

/-- What the generated client returns on success: `(res, nil)`. -/
def CallResult.success {α : Type} (payload : α) : CallResult α := ⟨some payload, none⟩

/-- What the generated client returns on failure: `(nil, err)`. -/
def CallResult.failure {α : Type} (e : GoError) : CallResult α := ⟨none, some e⟩

/-- The payload of the status endpoint, a Go `interface{}`: either not a
`map[string]interface{}`, or such a map, seen through its entry `netbox-version`
(`none` when the key is absent or its value is not a string). -/
inductive StatusPayload where
  | notAMap
  | map (netboxVersion : Option String)
  deriving DecidableEq, Repr

/-- `client.NetBoxAPI`: the endpoints the provider and the two resources use. -/
structure NetBoxAPI where
  StatusList : CallResult StatusPayload
  DcimSitesCreate : WritableSite → CallResult Site
  DcimSitesRead : Int → CallResult Site
  DcimSitesPartialUpdate : Int → WritableSite → CallResult Site
  DcimSitesDelete : Int → CallResult Unit
  ExtrasTagsList : Option String → Option Int → CallResult TagsListBody
  VirtualizationVirtualMachinesCreate :
    WritableVirtualMachineWithConfigContext → CallResult VirtualMachineWithConfigContext
  VirtualizationVirtualMachinesRead : Int → CallResult VirtualMachineWithConfigContext

/-- A remote call, as recorded in a run. -/
inductive RemoteCall where
  | sitesCreate (data : WritableSite)
  | sitesRead (id : Int)
  | sitesUpdate (id : Int) (data : WritableSite)
  | sitesDelete (id : Int)
  | tagsList (name : Option String) (limit : Option Int)
  | vmCreate (data : WritableVirtualMachineWithConfigContext)
  | vmRead (id : Int)
  deriving DecidableEq, Repr

/-- How a handler ends: it returns, leaving the response as given, or the
goroutine panics. -/
inductive Exit (ρ : Type) where
  | returned (response : ρ)
  | panicked
  deriving DecidableEq, Repr

/-- A run of a handler: the remote calls it issued, in order, and how it ended. -/
structure Run (ρ : Type) where
  calls : List RemoteCall
  exit : Exit ρ
  deriving DecidableEq, Repr

/-! ## Go helpers -/

/-- Go `make([]T, len, cap)`: a slice of `len` zero values; the capacity only
reserves room. -/
def makeSlice {α : Type} (zero : α) (len : Nat) (_cap : Nat) : List α :=
  List.replicate len zero

/-- A lower-case hexadecimal digit. -/
def hexDigit (n : Nat) : Char :=
  "0123456789abcdef".toList.getD n '0'

/-- One character inside `fmt.Sprintf("%q", s)`, as `strconv.Quote` writes it: the
double quote and the backslash take a backslash; bell, backspace, form feed,
newline, carriage return, tab and vertical tab take their letter; every other
character below U+0020, and U+007F, is written `\x` and two hexadecimal digits;
the remaining ASCII characters are written as they are. Outside ASCII Go consults
the table `unicode.IsPrint` and escapes the characters that are not printable;
that table is not part of this development and those characters are written as
they are. -/
def goQuoteChar (c : Char) : List Char :=
  if c = Char.ofNat 34 then [Char.ofNat 92, Char.ofNat 34]
  else if c = Char.ofNat 92 then [Char.ofNat 92, Char.ofNat 92]
  else if c = Char.ofNat 7 then [Char.ofNat 92, 'a']
  else if c = Char.ofNat 8 then [Char.ofNat 92, 'b']
  else if c = Char.ofNat 12 then [Char.ofNat 92, 'f']
  else if c = Char.ofNat 10 then [Char.ofNat 92, 'n']
  else if c = Char.ofNat 13 then [Char.ofNat 92, 'r']
  else if c = Char.ofNat 9 then [Char.ofNat 92, 't']
  else if c = Char.ofNat 11 then [Char.ofNat 92, 'v']
  else if c.toNat < 32 ∨ c.toNat = 127 then
    [Char.ofNat 92, 'x', hexDigit (c.toNat / 16), hexDigit (c.toNat % 16)]
  else [c]

/-- The verb `%q`: the string between double quotes, escaped. -/
def goQuote (s : String) : String :=
  String.mk ([Char.ofNat 34] ++ s.toList.foldr (fun c acc => goQuoteChar c ++ acc) []
    ++ [Char.ofNat 34])

/-- `types.String.String()`: a human-readable rendering, quoted when known. -/
def TFValue.String : TFValue String → String
  | TFValue.unknown => "<unknown>"
  | TFValue.null => "<null>"
  | TFValue.known v => goQuote v

/-! ## `netbox/utils_v6.go` -/

/-- `toInt64ListV6`: ranges over `intElements`, a slice made with length 0 and
capacity `len(a.Elements())`. The elements of a set are `types.Int64` values. -/
def toInt64ListV6 (a : TFValue (List Int)) : List Int :=
  let elems : List Int := match a with
    | TFValue.known xs => xs
    | _ => []
  let intElements : List (TFValue Int) := makeSlice TFValue.null 0 elems.length
  intElements.foldl (fun intList number => intList ++ [number.ValueInt64]) []

/-! ## `netbox/tags_v6.go` -/

/-- The loop of `getNestedTagListFromResourceDataSetV6` over the remaining
elements: `tags` and `diag` are the function's locals, `calls` the lookups issued
so far. It ends by returning `tags` (the second component is the local `diag`,
which the Go function does not return), or by a panic (`res.GetPayload()` on a nil
response, `*payload.Count` on nil, `payload.Results[0]` on an empty slice). -/
def tagLoop (client : NetBoxAPI) :
    List (TFValue String) → List NestedTag → Diagnostics → List RemoteCall →
      Run (List NestedTag × Diagnostics)
  | [], tags, diag, calls => ⟨calls, Exit.returned (tags, diag)⟩
  | tag :: rest, tags, diag, calls =>
    let name := tag.ValueStringPointer
    let limit : Option Int := some 2
    let r := client.ExtrasTagsList name limit
    let calls := calls ++ [RemoteCall.tagsList name limit]
    if r.err.isSome then
      ⟨calls, Exit.returned (tags, Diagnostics.AddError diag
        ("Error retrieving tag " ++ tag.String ++ " from netbox")
        ("API Error trying to retrieve tag " ++ tag.String ++ " from netbox"))⟩
    else
      match r.res with
      | none => ⟨calls, Exit.panicked⟩
      | some payload =>
        match payload.Count with
        | none => ⟨calls, Exit.panicked⟩
        | some count =>
          if count = 0 then
            ⟨calls, Exit.returned (tags, Diagnostics.AddError diag
              ("Error retrieving tag " ++ tag.String ++ " from netbox")
              ("Could not locate referenced tag " ++ tag.String ++ " in netbox"))⟩
          else if count = 1 then
            match payload.Results with
            | [] => ⟨calls, Exit.panicked⟩
            | t :: _ => tagLoop client rest (tags ++ [⟨t.Name, t.Slug⟩]) diag calls
          else
            ⟨calls, Exit.returned (tags, Diagnostics.AddError diag
              ("Error retrieving tag " ++ tag.String ++ " from netbox")
              ("Could not map tag " ++ tag.String ++ " to unique tag in netbox"))⟩

/-- `getNestedTagListFromResourceDataSetV6(client, d, diag)`. `diag` is received
by value (a slice header), so what `AddError` appends stays in the callee.
`elements` is made with length 0 and capacity `len(d.Elements())`, and the loop
ranges over `elements`. -/
def getNestedTagListFromResourceDataSetV6 (client : NetBoxAPI) (d : TFValue (List String))
    (diag : Diagnostics) : Run (List NestedTag × Diagnostics) :=
  let dElements : List String := match d with
    | TFValue.known xs => xs
    | _ => []
  let elements : List (TFValue String) := makeSlice TFValue.null 0 dElements.length
  tagLoop client elements [] diag []

/-! ## `netbox/resource_netbox_site_v6.go` -/

/-- The Go struct `netboxSiteModel`. -/
structure netboxSiteModel where
  ID : TFValue Int
  Name : TFValue String
  Slug : TFValue String
  Status : TFValue String
  Description : TFValue String
  Facility : TFValue String
  Longitude : TFValue float64
  Latitude : TFValue float64
  PhysicalAddress : TFValue String
  ShippingAddress : TFValue String
  RegionID : TFValue Int
  GroupID : TFValue Int
  TenantID : TFValue Int
  Timezone : TFValue String
  ASNIDs : TFValue (List Int)
  Tags : TFValue (List String)
  deriving DecidableEq, Repr

/-- `generateWritableSite(data, api, diag)`: the outbound mapping. `diag` is
received by value; the function returns the payload only. The run records the tag
lookups and a panic inside the tag resolution. -/
def generateWritableSite (data : netboxSiteModel) (api : NetBoxAPI) (diag : Diagnostics) :
    Run WritableSite :=
  let tagRun : Run (List NestedTag × Diagnostics) :=
    if !data.Tags.IsNull then getNestedTagListFromResourceDataSetV6 api data.Tags diag
    else ⟨[], Exit.returned ([], diag)⟩
  match tagRun.exit with
  | Exit.panicked => ⟨tagRun.calls, Exit.panicked⟩
  | Exit.returned (tags, _) =>
    ⟨tagRun.calls, Exit.returned
      { Name := data.Name.ValueStringPointer
        Slug := data.Slug.ValueStringPointer
        Status := data.Status.ValueString
        Description := if !data.Description.IsNull then data.Description.ValueString else ""
        Facility := if !data.Facility.IsNull then data.Facility.ValueString else ""
        Longitude := if !data.Longitude.IsNull then data.Longitude.ValueFloat64Pointer else none
        Latitude := if !data.Latitude.IsNull then data.Latitude.ValueFloat64Pointer else none
        PhysicalAddress :=
          if !data.PhysicalAddress.IsNull then data.PhysicalAddress.ValueString else ""
        ShippingAddress :=
          if !data.ShippingAddress.IsNull then data.ShippingAddress.ValueString else ""
        Region := if !data.RegionID.IsNull then data.RegionID.ValueInt64Pointer else none
        Group := if !data.GroupID.IsNull then data.GroupID.ValueInt64Pointer else none
        Tenant := if !data.TenantID.IsNull then data.TenantID.ValueInt64Pointer else none
        Tags := tags
        TimeZone := if !data.Timezone.IsNull then data.Timezone.ValueStringPointer else none
        Asns := if !data.ASNIDs.IsNull then toInt64ListV6 data.ASNIDs else [] }⟩

/-- Modelled from the spec: `getIDsFromNestedASNList` is not among the source
files; by the spec (4.2, inbound) a nested reference object maps to its bare
identifier only. -/
def getIDsFromNestedASNList (asns : List Nested) : List Int :=
  asns.map (fun a => a.ID)

/-- The receiver `resourceNetboxSitev6`: `ApiClient` is nil until `Configure` ran. -/
structure resourceNetboxSitev6 where
  ApiClient : Option NetBoxAPI

/-- A `resource.CreateRequest`: the plan. -/
structure CreateRequest (α : Type) where
  Plan : Stored α

/-- A `resource.ReadRequest`: the prior state. -/
structure ReadRequest (α : Type) where
  State : Stored α

/-- A `resource.UpdateRequest`: the plan (the newly declared configuration with
defaults applied) and the prior state. -/
structure UpdateRequest (α : Type) where
  Plan : Stored α
  State : Stored α

/-- A `resource.DeleteRequest`: the prior state. -/
structure DeleteRequest (α : Type) where
  State : Stored α

/-- `Create` of the site resource. -/
def resourceNetboxSitev6.Create (r : resourceNetboxSitev6)
    (request : CreateRequest netboxSiteModel) (response : Response netboxSiteModel) :
    Run (Response netboxSiteModel) :=
  let data := request.Plan.data
  let response := { response with
    Diagnostics := Diagnostics.Append response.Diagnostics request.Plan.diags }
  if Diagnostics.HasError response.Diagnostics then ⟨[], Exit.returned response⟩
  else
    match r.ApiClient with
    | none => ⟨[], Exit.returned { response with
        Diagnostics := Diagnostics.AddError response.Diagnostics
          "Create: Unconfigured API Client"
          "Expected configured API Client. Please report this issue to the provider developers." }⟩
    | some api =>
      let gen := generateWritableSite data api response.Diagnostics
      match gen.exit with
      | Exit.panicked => ⟨gen.calls, Exit.panicked⟩
      | Exit.returned site =>
        let r := api.DcimSitesCreate site
        let calls := gen.calls ++ [RemoteCall.sitesCreate site]
        match r.err with
        | some err => ⟨calls, Exit.returned { response with
            Diagnostics := Diagnostics.AddError response.Diagnostics
              "Error while creating the Site" err.Error }⟩
        | none =>
          match r.res with
          | none => ⟨calls, Exit.panicked⟩
          | some payload =>
            let data := { data with ID := types.Value payload.ID }
            ⟨calls, Exit.returned { response with State := some data }⟩

/-- `Read` of the site resource. After the call, only an error that is the typed
default response with code 404 returns; on every other path the code goes on to
`res.GetPayload()`, which dereferences `res`. -/
def resourceNetboxSitev6.Read (r : resourceNetboxSitev6)
    (request : ReadRequest netboxSiteModel) (response : Response netboxSiteModel) :
    Run (Response netboxSiteModel) :=
  match r.ApiClient with
  | none => ⟨[], Exit.returned { response with
      Diagnostics := Diagnostics.AddError response.Diagnostics
        "Read: Unconfigured API Client"
        "Expected configured API Client. Please report this issue to the provider developers." }⟩
  | some api =>
    if Diagnostics.HasError response.Diagnostics then ⟨[], Exit.returned response⟩
    else
      let data := request.State.data
      let response := { response with
        Diagnostics := Diagnostics.Append response.Diagnostics request.State.diags }
      let r := api.DcimSitesRead data.ID.ValueInt64
      let calls := [RemoteCall.sitesRead data.ID.ValueInt64]
      let notFound : Bool := match r.err with
        | some (GoError.Default errorcode _) => decide (errorcode = 404)
        | _ => false
      if notFound then ⟨calls, Exit.returned { response with State := none }⟩
      else
        match r.res with
        | none => ⟨calls, Exit.panicked⟩
        | some site =>
          match site.Status with
          | none => ⟨calls, Exit.panicked⟩
          | some status =>
            let data := { data with
              Name := types.PointerValue site.Name
              Slug := types.PointerValue site.Slug
              Status := types.PointerValue status.Value
              Description :=
                if site.Description ≠ "" then types.Value site.Description else data.Description
              Facility := if site.Facility ≠ "" then types.Value site.Facility else data.Facility
              Longitude := types.PointerValue site.Longitude
              Latitude := types.PointerValue site.Latitude
              PhysicalAddress := types.Value site.PhysicalAddress
              ShippingAddress := types.Value site.ShippingAddress
              RegionID := match site.Region with
                | some region => types.Value region.ID
                | none => data.RegionID
              GroupID := match site.Group with
                | some group => types.Value group.ID
                | none => data.GroupID
              TenantID := match site.Tenant with
                | some tenant => types.Value tenant.ID
                | none => data.TenantID
              Timezone := types.PointerValue site.TimeZone
              ASNIDs := types.Value (getIDsFromNestedASNList site.Asns) }
            ⟨calls, Exit.returned { response with State := some data }⟩

/-- `Update` of the site resource. `data` is decoded from `request.State`. -/
def resourceNetboxSitev6.Update (r : resourceNetboxSitev6)
    (request : UpdateRequest netboxSiteModel) (response : Response netboxSiteModel) :
    Run (Response netboxSiteModel) :=
  match r.ApiClient with
  | none => ⟨[], Exit.returned { response with
      Diagnostics := Diagnostics.AddError response.Diagnostics
        "Read: Unconfigured API Client"
        "Expected configured API Client. Please report this issue to the provider developers." }⟩
  | some api =>
    if Diagnostics.HasError response.Diagnostics then ⟨[], Exit.returned response⟩
    else
      let data := request.State.data
      let response := { response with
        Diagnostics := Diagnostics.Append response.Diagnostics request.State.diags }
      let gen := generateWritableSite data api response.Diagnostics
      match gen.exit with
      | Exit.panicked => ⟨gen.calls, Exit.panicked⟩
      | Exit.returned site =>
        let r := api.DcimSitesPartialUpdate data.ID.ValueInt64 site
        let calls := gen.calls ++ [RemoteCall.sitesUpdate data.ID.ValueInt64 site]
        match r.err with
        | some err => ⟨calls, Exit.returned { response with
            Diagnostics := Diagnostics.AddError response.Diagnostics
              "Error while updating the Site" err.Error }⟩
        | none => ⟨calls, Exit.returned { response with State := some data }⟩

/-- `Delete` of the site resource. An error is looked at only when it is the typed
default response. -/
def resourceNetboxSitev6.Delete (r : resourceNetboxSitev6)
    (request : DeleteRequest netboxSiteModel) (response : Response netboxSiteModel) :
    Run (Response netboxSiteModel) :=
  match r.ApiClient with
  | none => ⟨[], Exit.returned { response with
      Diagnostics := Diagnostics.AddError response.Diagnostics
        "Read: Unconfigured API Client"
        "Expected configured API Client. Please report this issue to the provider developers." }⟩
  | some api =>
    if Diagnostics.HasError response.Diagnostics then ⟨[], Exit.returned response⟩
    else
      let data := request.State.data
      let response := { response with
        Diagnostics := Diagnostics.Append response.Diagnostics request.State.diags }
      let r := api.DcimSitesDelete data.ID.ValueInt64
      let calls := [RemoteCall.sitesDelete data.ID.ValueInt64]
      match r.err with
      | some (GoError.Default code message) =>
        if code = 404 then ⟨calls, Exit.returned { response with State := none }⟩
        else ⟨calls, Exit.returned { response with
          Diagnostics := Diagnostics.AddError response.Diagnostics
            "Unable to delete the site." (GoError.Default code message).Error }⟩
      | _ => ⟨calls, Exit.returned response⟩

/-! ## `netbox/resource_netbox_virtual_machine_v6.go` -/

/-- The Go struct `netboxVirtualMachineModel`. -/
structure netboxVirtualMachineModel where
  ID : TFValue Int
  Name : TFValue String
  ClusterID : TFValue Int
  Status : TFValue String
  deriving DecidableEq, Repr

/-- The receiver `resourceNetboxVirtualMachineV6`. -/
structure resourceNetboxVirtualMachineV6 where
  ApiClient : Option NetBoxAPI

/-- `Create` of the virtual machine resource. -/
def resourceNetboxVirtualMachineV6.Create (r : resourceNetboxVirtualMachineV6)
    (request : CreateRequest netboxVirtualMachineModel)
    (response : Response netboxVirtualMachineModel) :
    Run (Response netboxVirtualMachineModel) :=
  let data := request.Plan.data
  let response := { response with
    Diagnostics := Diagnostics.Append response.Diagnostics request.Plan.diags }
  if Diagnostics.HasError response.Diagnostics then ⟨[], Exit.returned response⟩
  else
    match r.ApiClient with
    | none => ⟨[], Exit.returned { response with
        Diagnostics := Diagnostics.AddError response.Diagnostics
          "Create: Unconfigured API Client"
          "Expected configured API Client. Please report this issue to the provider developers." }⟩
    | some api =>
      let vm : WritableVirtualMachineWithConfigContext :=
        { Name := data.Name.ValueStringPointer
          Status := data.Status.String
          Cluster := if !data.ClusterID.IsNull then data.ClusterID.ValueInt64Pointer else none }
      let r := api.VirtualizationVirtualMachinesCreate vm
      let calls := [RemoteCall.vmCreate vm]
      match r.err with
      | some err => ⟨calls, Exit.returned { response with
          Diagnostics := Diagnostics.AddError response.Diagnostics
            "An error occured while creating the Virtual Machine" err.Error }⟩
      | none =>
        match r.res with
        | none => ⟨calls, Exit.panicked⟩
        | some payload =>
          let data := { data with ID := types.Value payload.ID }
          ⟨calls, Exit.returned { response with State := some data }⟩

/-- `Read` of the virtual machine resource. -/
def resourceNetboxVirtualMachineV6.Read (r : resourceNetboxVirtualMachineV6)
    (request : ReadRequest netboxVirtualMachineModel)
    (response : Response netboxVirtualMachineModel) :
    Run (Response netboxVirtualMachineModel) :=
  match r.ApiClient with
  | none => ⟨[], Exit.returned { response with
      Diagnostics := Diagnostics.AddError response.Diagnostics
        "Read: Unconfigured API Client"
        "Expected configured API Client. Please report this issue to the provider developers." }⟩
  | some api =>
    let data := request.State.data
    let response := { response with
      Diagnostics := Diagnostics.Append response.Diagnostics request.State.diags }
    let r := api.VirtualizationVirtualMachinesRead data.ID.ValueInt64
    let calls := [RemoteCall.vmRead data.ID.ValueInt64]
    let notFound : Bool := match r.err with
      | some (GoError.Default errorcode _) => decide (errorcode = 404)
      | _ => false
    if notFound then ⟨calls, Exit.returned { response with State := none }⟩
    else
      match r.res with
      | none => ⟨calls, Exit.panicked⟩
      | some vm =>
        match vm.Status with
        | none => ⟨calls, Exit.panicked⟩
        | some status =>
          let data := { data with
            Name := types.PointerValue vm.Name
            ClusterID := match vm.Cluster with
              | some cluster => types.Value cluster.ID
              | none => TFValue.null
            Status := types.PointerValue status.Value }
          ⟨calls, Exit.returned { response with State := some data }⟩

/-- `Update` of the virtual machine resource: `panic("implement me")`. -/
def resourceNetboxVirtualMachineV6.Update (_r : resourceNetboxVirtualMachineV6)
    (_request : UpdateRequest netboxVirtualMachineModel)
    (_response : Response netboxVirtualMachineModel) :
    Run (Response netboxVirtualMachineModel) :=
  ⟨[], Exit.panicked⟩

/-- `Delete` of the virtual machine resource: `panic("implement me")`. -/
def resourceNetboxVirtualMachineV6.Delete (_r : resourceNetboxVirtualMachineV6)
    (_request : DeleteRequest netboxVirtualMachineModel)
    (_response : Response netboxVirtualMachineModel) :
    Run (Response netboxVirtualMachineModel) :=
  ⟨[], Exit.panicked⟩

/-! ## The schema of the site resource and its validation -/

/-- A validator of the package `stringvalidator`. -/
inductive StringValidator where
  | LengthBetween (minLength maxLength : Nat)
  | OneOfCaseInsensitive (values : List String)
  deriving DecidableEq, Repr

/-- The type of an attribute of a schema. -/
inductive AttributeType where
  | String
  | Int64
  | Float64
  | SetOfInt64
  | SetOfString
  deriving DecidableEq, Repr

/-- A `schema.StringAttribute`, `schema.Int64Attribute`, `schema.Float64Attribute`
or `schema.SetAttribute`: the flags, the validators and the static default. -/
structure Attribute where
  Kind : AttributeType
  Required : Bool
  Optional : Bool
  Computed : Bool
  Validators : List StringValidator
  Default : Option String
  deriving DecidableEq, Repr

/-- `resourceNetboxSitev6.Schema`: the attributes by name. The status options
`resourceNetboxSiteStatusOptions` are declared outside these sources and are a
parameter. -/
def resourceNetboxSitev6.Schema (resourceNetboxSiteStatusOptions : List String) :
    List (String × Attribute) :=
  [ ("id", ⟨AttributeType.Int64, false, false, true, [], none⟩),
    ("name", ⟨AttributeType.String, true, false, false, [], none⟩),
    ("slug", ⟨AttributeType.String, true, false, false,
      [StringValidator.LengthBetween 1 100], none⟩),
    ("status", ⟨AttributeType.String, false, true, true,
      [StringValidator.OneOfCaseInsensitive resourceNetboxSiteStatusOptions], some "active"⟩),
    ("description", ⟨AttributeType.String, false, true, false,
      [StringValidator.LengthBetween 1 200], none⟩),
    ("facility", ⟨AttributeType.String, false, true, false,
      [StringValidator.LengthBetween 1 50], none⟩),
    ("longitude", ⟨AttributeType.Float64, false, true, false, [], none⟩),
    ("latitude", ⟨AttributeType.Float64, false, true, false, [], none⟩),
    ("physical_address", ⟨AttributeType.String, false, true, false, [], none⟩),
    ("shipping_address", ⟨AttributeType.String, false, true, false, [], none⟩),
    ("region_id", ⟨AttributeType.Int64, false, true, false, [], none⟩),
    ("group_id", ⟨AttributeType.Int64, false, true, false, [], none⟩),
    ("tenant_id", ⟨AttributeType.Int64, false, true, false, [], none⟩),
    ("timezone", ⟨AttributeType.String, false, true, false, [], none⟩),
    ("asn_ids", ⟨AttributeType.SetOfInt64, false, true, false, [], none⟩),
    ("tags", ⟨AttributeType.SetOfString, false, true, false, [], none⟩) ]

/-- The string attribute of a site declaration under its `tfsdk` name; attributes
of another type have no string value and read as null here. -/
def netboxSiteModel.stringAttribute (config : netboxSiteModel) (name : String) :
    TFValue String :=
  if name = "name" then config.Name
  else if name = "slug" then config.Slug
  else if name = "status" then config.Status
  else if name = "description" then config.Description
  else if name = "facility" then config.Facility
  else if name = "physical_address" then config.PhysicalAddress
  else if name = "shipping_address" then config.ShippingAddress
  else if name = "timezone" then config.Timezone
  else TFValue.null

/-- Whether the attribute under a `tfsdk` name is null in a site declaration. -/
def netboxSiteModel.attributeIsNull (config : netboxSiteModel) (name : String) : Bool :=
  if name = "id" then config.ID.IsNull
  else if name = "longitude" then config.Longitude.IsNull
  else if name = "latitude" then config.Latitude.IsNull
  else if name = "region_id" then config.RegionID.IsNull
  else if name = "group_id" then config.GroupID.IsNull
  else if name = "tenant_id" then config.TenantID.IsNull
  else if name = "asn_ids" then config.ASNIDs.IsNull
  else if name = "tags" then config.Tags.IsNull
  else (config.stringAttribute name).IsNull

/-- `ValidateString` of a string validator on the attribute named `attr`: null and
unknown values are skipped. `LengthBetween` compares Go's `len(value)`, the length
in bytes. `OneOfCaseInsensitive` accepts a value that `strings.EqualFold` equates
with one of the options; that function of the Go library is the parameter
`EqualFold`. The details follow the library: the options are rendered between
brackets, each quoted, separated by a blank. -/
def StringValidator.ValidateString (EqualFold : String → String → Bool) (attr : String)
    (v : StringValidator) (value : TFValue String) : List Diagnostic :=
  match value with
  | TFValue.known s =>
    match v with
    | StringValidator.LengthBetween minLength maxLength =>
      if s.utf8ByteSize < minLength ∨ s.utf8ByteSize > maxLength then
        [⟨Severity.error, "Invalid Attribute Value Length",
          "Attribute " ++ attr ++ " string length must be between "
            ++ toString minLength ++ " and " ++ toString maxLength ++ ", got: "
            ++ toString s.utf8ByteSize⟩]
      else []
    | StringValidator.OneOfCaseInsensitive values =>
      if values.any (fun acceptableValue => EqualFold s acceptableValue) then []
      else
        [⟨Severity.error, "Invalid Attribute Value Match",
          "Attribute " ++ attr ++ " value must be one of: ["
            ++ String.intercalate " " (values.map goQuote) ++ "], got: " ++ goQuote s⟩]
  | _ => []

/-- The diagnostics of one attribute of a declaration, as the framework validates
it: a required attribute must not be null, and every validator runs on the
value. -/
def Attribute.Validate (EqualFold : String → String → Bool) (config : netboxSiteModel)
    (name : String) (a : Attribute) : List Diagnostic :=
  (if a.Required && config.attributeIsNull name then
      [⟨Severity.error, "Missing Configuration for Required Attribute",
        "Must set a configuration value for the " ++ name
          ++ " attribute as the provider has marked it as required."
          ++ String.mk [Char.ofNat 10, Char.ofNat 10]
          ++ "Refer to the provider documentation or contact the provider developers "
          ++ "for additional information about configurable attributes that are "
          ++ "required."⟩]
    else [])
  ++ a.Validators.foldr
      (fun v acc => v.ValidateString EqualFold name (config.stringAttribute name) ++ acc) []

/-- Validation of a site declaration against a schema, as the host does before any
lifecycle operation: the diagnostics of all attributes. -/
def ValidateResourceConfig (EqualFold : String → String → Bool)
    (schema : List (String × Attribute)) (config : netboxSiteModel) : Diagnostics :=
  schema.foldl
    (fun diags entry =>
      Diagnostics.Append diags (entry.2.Validate EqualFold config entry.1)) []

/-! ## `netbox/provider_plugin.go` -/

/-- `types.Bool.ValueBool()`: the known value, false when null or unknown. -/
def TFValue.ValueBool : TFValue Bool → Bool
  | TFValue.known v => v
  | _ => false

/-- `types.Int32.ValueInt32()`: the known value, zero when null or unknown. -/
def TFValue.ValueInt32 : TFValue Int → Int
  | TFValue.known v => v
  | _ => 0

/-- `Diagnostics.AddWarning(summary, detail)`. -/
def Diagnostics.AddWarning (diags : Diagnostics) (summary detail : String) : Diagnostics :=
  Diagnostics.Append diags [⟨Severity.warning, summary, detail⟩]

/-- `strconv.ParseInt(s, 10, 32)`: the value returned and whether an error is
returned with it. A syntax error (empty input, no digit, a character that is not
a decimal digit after the optional sign) gives 0; a value out of the range of
`int32` gives the nearest bound. -/
def ParseInt32 (s : String) : Int × Bool :=
  match s.toList with
  | [] => (0, true)
  | c :: rest =>
    let neg : Bool := decide (c = '-')
    let digits : List Char := if c = '+' ∨ c = '-' then rest else c :: rest
    if digits.isEmpty || !digits.all Char.isDigit then (0, true)
    else
      let un : Nat := digits.foldl (fun acc d => acc * 10 + (d.toNat - 48)) 0
      if !neg && decide (un ≥ 2 ^ 31) then (2 ^ 31 - 1, true)
      else if neg && decide (un > 2 ^ 31) then (-(2 ^ 31), true)
      else (if neg then -(un : Int) else (un : Int), false)

/-- The Go struct `netboxProviderModel`. -/
structure netboxProviderModel where
  ApiToken : TFValue String
  ServerUrl : TFValue String
  SkipVersionCheck : TFValue Bool
  AllowInsecureHttps : TFValue Bool
  Headers : TFValue (List (String × String))
  StripTrailingSlashesFromUrl : TFValue Bool
  RequestTimeout : TFValue Int
  deriving DecidableEq, Repr

/-- The struct `Config`, declared outside these sources: the three fields that
`Configure` fills. -/
structure Config where
  APIToken : String
  ServerURL : String
  RequestTimeout : Int
  deriving DecidableEq, Repr

/-- The receiver `netboxProvider`. -/
structure netboxProvider where
  client : Option NetBoxAPI

/-- A `provider.ConfigureRequest`: the provider configuration. -/
structure ConfigureRequest where
  Config : Stored netboxProviderModel

/-- A `provider.ConfigureResponse`: `ResourceData` receives the provider itself,
`DataSourceData` the client. -/
structure ConfigureResponse where
  Diagnostics : Diagnostics
  ResourceData : Option netboxProvider
  DataSourceData : Option NetBoxAPI

/-- A run of the provider's `Configure`: the `Config` it built and called
`Client()` on, and how it ended. -/
structure ConfigureRun where
  config : Config
  exit : Exit ConfigureResponse

/-- The versions the provider was tested against. -/
def supportedVersions : List String :=
  ["4.0.0", "4.0.1", "4.0.2", "4.0.3", "4.0.5", "4.0.6", "4.0.7", "4.0.8", "4.0.9", "4.0.10"]

/-- The detail of the version warning. -/
def versionWarningDetail (netboxVersion : String) : String :=
  "Your Netbox version is v" ++ netboxVersion
    ++ ". The provider was successfully tested against the following versions:"
    ++ String.mk [Char.ofNat 10, Char.ofNat 10] ++ "  "
    ++ String.intercalate ", " supportedVersions
    ++ String.mk [Char.ofNat 10, Char.ofNat 10] ++ "Unexpected errors may occur."

/-- The local `apiToken` of `Configure` when the `Config` is built: the variable
`NETBOX_API_TOKEN`, overridden by the configured `api_token` when that is not
null. The environment is the function `getenv`. -/
def netboxProvider.Configure.apiToken (getenv : String → String)
    (data : netboxProviderModel) : String :=
  let apiToken := getenv "NETBOX_API_TOKEN"
  if !data.ApiToken.IsNull then data.ApiToken.ValueString else apiToken

/-- The local `serverUrl` of `Configure` when the `Config` is built. -/
def netboxProvider.Configure.serverUrl (getenv : String → String)
    (data : netboxProviderModel) : String :=
  let serverUrl := getenv "NETBOX_SERVER_URL"
  if !data.ServerUrl.IsNull then data.ServerUrl.ValueString else serverUrl

/-- The local `requestTimeout` of `Configure` when the `Config` is built: 10 when
`NETBOX_REQUEST_TIMEOUT` is empty, else what `ParseInt` returns for it, overridden
by the configured `request_timeout` when that is not null. -/
def netboxProvider.Configure.requestTimeout (getenv : String → String)
    (data : netboxProviderModel) : Int :=
  let requestTimeoutString := getenv "NETBOX_REQUEST_TIMEOUT"
  let requestTimeout : Int :=
    if requestTimeoutString = "" then 10 else (ParseInt32 requestTimeoutString).1
  if !data.RequestTimeout.IsNull then data.RequestTimeout.ValueInt32 else requestTimeout

/-- The diagnostics of `Configure` at the point where the `Config` is built,
from the diagnostics `diags` it has after decoding the configuration: in the
order of the code, the error for an unparsable `NETBOX_REQUEST_TIMEOUT`, the error
for an empty API token, the error for an empty server URL. -/
def netboxProvider.Configure.diagnostics (getenv : String → String)
    (data : netboxProviderModel) (diags : Diagnostics) : Diagnostics :=
  let requestTimeoutString := getenv "NETBOX_REQUEST_TIMEOUT"
  let diags :=
    if requestTimeoutString = "" then diags
    else if (ParseInt32 requestTimeoutString).2 then
      Diagnostics.AddError diags "Invalid Request Timeout environment variable." "TODO"
    else diags
  let diags :=
    if netboxProvider.Configure.apiToken getenv data = "" then
      Diagnostics.AddError diags "Missing API Token Configuration" "TODO DETAIL"
    else diags
  if netboxProvider.Configure.serverUrl getenv data = "" then
    Diagnostics.AddError diags "Missing server URL configuration." "TODO details"
  else diags

/-- `netboxProvider.Configure`. The environment is the function `getenv`;
`Client` stands for the method `Config.Client()`, declared outside these sources,
and returns the Go pair `(client, err)`. The locals `apiToken`, `serverUrl`,
`requestTimeout` and the diagnostics up to the construction of the `Config` are
the four functions above. -/
def netboxProvider.Configure (getenv : String → String)
    (Client : Config → Option NetBoxAPI × Option GoError)
    (_p : netboxProvider) (request : ConfigureRequest) (response : ConfigureResponse) :
    ConfigureRun :=
  let data := request.Config.data
  let diags := netboxProvider.Configure.diagnostics getenv data
    (Diagnostics.Append response.Diagnostics request.Config.diags)
  let config : Config :=
    { APIToken := netboxProvider.Configure.apiToken getenv data
      ServerURL := netboxProvider.Configure.serverUrl getenv data
      RequestTimeout := netboxProvider.Configure.requestTimeout getenv data }
  let made := Client config
  let netboxClient := made.1
  match made.2 with
  | some clientError => ⟨config, Exit.returned { response with
      Diagnostics := Diagnostics.AddError diags "Error creating netbox client."
        clientError.Error }⟩
  | none =>
    if !data.SkipVersionCheck.ValueBool then
      match netboxClient with
      | none => ⟨config, Exit.panicked⟩
      | some api =>
        match api.StatusList.err with
        | some err => ⟨config, Exit.returned { response with
            Diagnostics := Diagnostics.AddError diags "Error getting netbox status."
              err.Error }⟩
        | none =>
          match api.StatusList.res with
          | none => ⟨config, Exit.panicked⟩
          | some StatusPayload.notAMap => ⟨config, Exit.panicked⟩
          | some (StatusPayload.map none) => ⟨config, Exit.panicked⟩
          | some (StatusPayload.map (some netboxVersion)) =>
            let diags :=
              if !supportedVersions.contains netboxVersion then
                Diagnostics.AddWarning diags "Possibly unsupported Netbox version"
                  (versionWarningDetail netboxVersion)
              else diags
            ⟨config, Exit.returned
              { Diagnostics := diags
                ResourceData := some ⟨netboxClient⟩
                DataSourceData := netboxClient }⟩
    else
      ⟨config, Exit.returned
        { Diagnostics := diags
          ResourceData := some ⟨netboxClient⟩
          DataSourceData := netboxClient }⟩

/-- The error `Configure` adds for an empty API token. -/
def missingTokenDiagnostic : Diagnostic :=
  ⟨Severity.error, "Missing API Token Configuration", "TODO DETAIL"⟩

/-- The error `Configure` adds for an empty server URL. -/
def missingServerUrlDiagnostic : Diagnostic :=
  ⟨Severity.error, "Missing server URL configuration.", "TODO details"⟩

/-! ## Remote services and declarations used as concrete inputs -/

/-- The remote echoes a written site: what the service stores and returns for a
payload it accepted under identifier `id`. -/
def echoSite (id : Int) (w : WritableSite) : Site :=
  { ID := id
    Name := w.Name
    Slug := w.Slug
    Status := some ⟨some w.Status, some w.Status⟩
    Description := w.Description
    Facility := w.Facility
    Longitude := w.Longitude
    Latitude := w.Latitude
    PhysicalAddress := w.PhysicalAddress
    ShippingAddress := w.ShippingAddress
    Region := w.Region.map Nested.mk
    Group := w.Group.map Nested.mk
    Tenant := w.Tenant.map Nested.mk
    TimeZone := w.TimeZone
    Asns := w.Asns.map Nested.mk
    Tags := w.Tags }

/-- A remote on which every call fails with the error `e`. -/
def failingRemote (e : GoError) : NetBoxAPI :=
  { StatusList := CallResult.failure e
    DcimSitesCreate := fun _ => CallResult.failure e
    DcimSitesRead := fun _ => CallResult.failure e
    DcimSitesPartialUpdate := fun _ _ => CallResult.failure e
    DcimSitesDelete := fun _ => CallResult.failure e
    ExtrasTagsList := fun _ _ => CallResult.failure e
    VirtualizationVirtualMachinesCreate := fun _ => CallResult.failure e
    VirtualizationVirtualMachinesRead := fun _ => CallResult.failure e }

/-- A remote that holds the site `site`, the virtual machine `vm` and the tags
`tags`: reads return them, writes are accepted and echoed, a tag lookup returns
the tags of that name (at most `limit` of them, with the full count). -/
def remoteHolding (site : Site) (vm : VirtualMachineWithConfigContext) (tags : List Tag) :
    NetBoxAPI :=
  { StatusList := CallResult.success (StatusPayload.map (some "4.0.10"))
    DcimSitesCreate := fun w => CallResult.success (echoSite site.ID w)
    DcimSitesRead := fun _ => CallResult.success site
    DcimSitesPartialUpdate := fun id w => CallResult.success (echoSite id w)
    DcimSitesDelete := fun _ => CallResult.success ()
    ExtrasTagsList := fun name limit =>
      let found := tags.filter (fun t => decide (t.Name = name))
      CallResult.success
        { Count := some (found.length : Int)
          Results := match limit with
            | some n => found.take n.toNat
            | none => found }
    VirtualizationVirtualMachinesCreate := fun w =>
      CallResult.success
        { ID := vm.ID, Name := w.Name, Cluster := w.Cluster.map Nested.mk,
          Status := some ⟨some w.Status, some w.Status⟩ }
    VirtualizationVirtualMachinesRead := fun _ => CallResult.success vm }

/-- The HTTP 404 answer as the typed default response. -/
def notFound404 : GoError := GoError.Default 404 "[GET /dcim/sites/(id)/][404] default"

/-- An HTTP 500 answer as the typed default response. -/
def serverError500 : GoError := GoError.Default 500 "[GET /dcim/sites/(id)/][500] default"

/-- A transport failure: not a typed default response. -/
def connectionRefused : GoError := GoError.other "dial tcp 127.0.0.1:8001: connect: connection refused"

/-- A declaration that sets only `name` and `slug`; `status` carries the schema
default `active`; `id` is `unknown` in a plan for Create. -/
def minimalSitePlan : netboxSiteModel :=
  { ID := TFValue.unknown
    Name := TFValue.known "dc1"
    Slug := TFValue.known "dc1"
    Status := TFValue.known "active"
    Description := TFValue.null
    Facility := TFValue.null
    Longitude := TFValue.null
    Latitude := TFValue.null
    PhysicalAddress := TFValue.null
    ShippingAddress := TFValue.null
    RegionID := TFValue.null
    GroupID := TFValue.null
    TenantID := TFValue.null
    Timezone := TFValue.null
    ASNIDs := TFValue.null
    Tags := TFValue.null }

/-- The tracked state of the first step of `TestAccNetboxSite_fieldUpdateV6`,
under identifier 1. -/
def describedSiteState : netboxSiteModel :=
  { minimalSitePlan with
    ID := TFValue.known 1
    Description := TFValue.known "Test site description"
    PhysicalAddress := TFValue.known "Physical address"
    ShippingAddress := TFValue.known "Shipping address"
    Latitude := TFValue.known ⟨4623014517045263725⟩
    Longitude := TFValue.known ⟨13846949503853460845⟩ }

/-- A tracked virtual machine under identifier 5. -/
def trackedVM : netboxVirtualMachineModel :=
  { ID := TFValue.known 5
    Name := TFValue.known "vm1"
    ClusterID := TFValue.known 2
    Status := TFValue.known "active" }

/-- A remote virtual machine, used where the remote must hold one. -/
def remoteVM : VirtualMachineWithConfigContext :=
  { ID := 5, Name := some "vm1", Cluster := some ⟨2⟩,
    Status := some ⟨some "Active", some "active"⟩ }

/-- The state a run leaves in the response, when the handler returned and a
state is set. -/
def Run.state {α : Type} (run : Run (Response α)) : Option α :=
  match run.exit with
  | Exit.returned response => response.State
  | Exit.panicked => none

/-- The diagnostics a run leaves in the response, when the handler returned. -/
def Run.diagnostics {α : Type} (run : Run (Response α)) : Option Diagnostics :=
  match run.exit with
  | Exit.returned response => some response.Diagnostics
  | Exit.panicked => none

/-- The payload `generateWritableSite` builds for `minimalSitePlan`. -/
def minimalPayload : WritableSite :=
  { Name := some "dc1"
    Slug := some "dc1"
    Status := "active"
    Description := ""
    Facility := ""
    Longitude := none
    Latitude := none
    PhysicalAddress := ""
    ShippingAddress := ""
    Region := none
    Group := none
    Tenant := none
    Tags := []
    TimeZone := none
    Asns := [] }

/-- The remote tag `web`. -/
def webTag : Tag := ⟨some "web", some "web"⟩

/-- A remote that holds, under identifier 7, the site created from
`minimalSitePlan`, and the single tag `web`. -/
def minimalRemote : NetBoxAPI :=
  remoteHolding (echoSite 7 minimalPayload) remoteVM [webTag]

/-- A remote that holds two tags named `web`. -/
def ambiguousRemote : NetBoxAPI :=
  remoteHolding (echoSite 7 minimalPayload) remoteVM [webTag, ⟨some "web", some "web-2"⟩]

/-- A declaration with two tag names; the remote `minimalRemote` has no tag
`missing`. -/
def taggedSitePlan : netboxSiteModel :=
  { minimalSitePlan with Tags := TFValue.known ["web", "missing"] }

/-- The plan of the second step of `TestAccNetboxSite_fieldUpdateV6`: only `name`
and `slug` are declared; `id` comes from the state. -/
def clearedSitePlan : netboxSiteModel :=
  { minimalSitePlan with ID := TFValue.known 1 }

/-- A tracked state with the four text attributes set. -/
def textSiteState : netboxSiteModel :=
  { describedSiteState with Facility := TFValue.known "Building A" }

/-- A remote site linked to region 3, site group 3 and tenant 3. -/
def linkedSite : Site :=
  { echoSite 1 minimalPayload with
    Region := some ⟨3⟩
    Group := some ⟨3⟩
    Tenant := some ⟨3⟩ }

/-- A remote that holds `linkedSite` and a virtual machine in cluster 3. -/
def linkedRemote : NetBoxAPI :=
  remoteHolding linkedSite { remoteVM with Cluster := some ⟨3⟩ } []

/-- A site declared with one ASN identifier, as in `TestAccNetboxSiteV6_basic`. -/
def asnSitePlan : netboxSiteModel :=
  { minimalSitePlan with ASNIDs := TFValue.known [12] }

/-- The declaration of `testAccVirtualMachineV6Config`: name, status `active` and a
cluster; `id` is unknown in the plan. -/
def declaredVM : netboxVirtualMachineModel :=
  { ID := TFValue.unknown
    Name := TFValue.known "vm1"
    ClusterID := TFValue.known 2
    Status := TFValue.known "active" }

/-- A declaration whose slug is the empty string. -/
def emptySlugPlan : netboxSiteModel :=
  { minimalSitePlan with Slug := TFValue.known "" }

/-- A concrete value of the parameter `EqualFold`: equality after lower-casing the
ASCII letters. -/
def asciiEqualFold (a b : String) : Bool :=
  decide (a.toLower = b.toLower)

/-- Status options used as a concrete value of the parameter of the schema. -/
def sampleStatusOptions : List String :=
  ["planned", "staging", "active", "decommissioning", "retired"]

/-- An environment that sets `NETBOX_API_TOKEN` and nothing else. -/
def tokenOnlyEnv (name : String) : String :=
  if name = "NETBOX_API_TOKEN" then "0123456789abcdef" else ""

/-- A provider configuration that only sets `skip_version_check = true`. -/
def skipCheckProviderConfig : netboxProviderModel :=
  { ApiToken := TFValue.null
    ServerUrl := TFValue.null
    SkipVersionCheck := TFValue.known true
    AllowInsecureHttps := TFValue.null
    Headers := TFValue.null
    StripTrailingSlashesFromUrl := TFValue.null
    RequestTimeout := TFValue.null }

/-- A `Client()` that always builds the client `minimalRemote`. -/
def alwaysClient (_config : Config) : Option NetBoxAPI × Option GoError :=
  (some minimalRemote, none)

/-- A remote that holds the site of `minimalRemote` but no virtual machine: the
get-by-identifier call of a virtual machine answers 404, every other call is
answered as by `minimalRemote`. -/
def vmGoneRemote : NetBoxAPI :=
  { minimalRemote with
    VirtualizationVirtualMachinesRead := fun _ => CallResult.failure notFound404 }

/-- An environment in which no variable is set. -/
def emptyEnv (_name : String) : String := ""

/-- A provider configuration that sets nothing. -/
def emptyProviderConfig : netboxProviderModel :=
  { skipCheckProviderConfig with SkipVersionCheck := TFValue.null }

/-! ## Diagnostics: basic facts -/

/-- `HasError` over a concatenation. -/
theorem Diagnostics.HasError_concat (a b : Diagnostics) :
    Diagnostics.HasError (a ++ b) = (Diagnostics.HasError a || Diagnostics.HasError b) := by
  simp [Diagnostics.HasError, List.any_append]

/-- `Append` reports an error exactly when the receiver or the argument holds one. -/
theorem Diagnostics.HasError_Append (a : Diagnostics) (ins : List Diagnostic) :
    Diagnostics.HasError (Diagnostics.Append a ins)
      = (Diagnostics.HasError a || Diagnostics.HasError ins) := by
  induction ins generalizing a with
  | nil => simp [Diagnostics.Append, Diagnostics.HasError]
  | cons d rest ih =>
    have step : Diagnostics.Append a (d :: rest)
        = Diagnostics.Append (if d ∈ a then a else a ++ [d]) rest := rfl
    rw [step, ih]
    by_cases hmem : d ∈ a
    · simp only [hmem, if_true]
      by_cases hd : d.severity = Severity.error
      · have ha : Diagnostics.HasError a = true := by
          simp only [Diagnostics.HasError, List.any_eq_true]
          exact ⟨d, hmem, by simp [hd]⟩
        simp [ha]
      · simp [Diagnostics.HasError, List.any_cons, hd]
    · simp only [hmem, if_false, Diagnostics.HasError_concat]
      simp [Diagnostics.HasError, List.any_cons, Bool.or_assoc]

/-- `AddError` always leaves an error in the diagnostics. -/
theorem Diagnostics.HasError_AddError (a : Diagnostics) (summary detail : String) :
    Diagnostics.HasError (Diagnostics.AddError a summary detail) = true := by
  unfold Diagnostics.AddError
  rw [Diagnostics.HasError_Append]
  simp [Diagnostics.HasError]

/-! ## Read and Delete against a remote that answers with an error -/

/-- C1 (drift detection). With a configured client: whenever the remote
get-by-identifier call of a site returns the typed default error with HTTP code
404 (and the response carries no error on entry, without which the site `Read`
does not reach the call), the site `Read` issues that one call and returns with
the state removed; whenever the remote get-by-identifier call of a virtual
machine returns the typed default error with HTTP code 404, the virtual machine
`Read` issues that one call and returns with the state removed. In both, the
diagnostics on return are those on entry followed by those of decoding the stored
state, so `Read` adds none of its own; and when neither the entry diagnostics nor
the decoding hold an error, the diagnostics on return hold none. Each of the two
resources is stated under its own premise only. -/
theorem read_not_found_removes_resource (api : NetBoxAPI)
    (reqS : ReadRequest netboxSiteModel) (respS : Response netboxSiteModel)
    (reqV : ReadRequest netboxVirtualMachineModel)
    (respV : Response netboxVirtualMachineModel) :
    (∀ (resS : Option Site) (msgS : String),
        Diagnostics.HasError respS.Diagnostics = false →
        api.DcimSitesRead reqS.State.data.ID.ValueInt64
          = ⟨resS, some (GoError.Default 404 msgS)⟩ →
        resourceNetboxSitev6.Read ⟨some api⟩ reqS respS
          = ⟨[RemoteCall.sitesRead reqS.State.data.ID.ValueInt64],
              Exit.returned ⟨Diagnostics.Append respS.Diagnostics reqS.State.diags, none⟩⟩)
      ∧ (∀ (resV : Option VirtualMachineWithConfigContext) (msgV : String),
        api.VirtualizationVirtualMachinesRead reqV.State.data.ID.ValueInt64
          = ⟨resV, some (GoError.Default 404 msgV)⟩ →
        resourceNetboxVirtualMachineV6.Read ⟨some api⟩ reqV respV
          = ⟨[RemoteCall.vmRead reqV.State.data.ID.ValueInt64],
              Exit.returned ⟨Diagnostics.Append respV.Diagnostics reqV.State.diags, none⟩⟩)
      ∧ (Diagnostics.HasError respS.Diagnostics = false →
          Diagnostics.HasError reqS.State.diags = false →
          Diagnostics.HasError (Diagnostics.Append respS.Diagnostics reqS.State.diags) = false)
      ∧ (Diagnostics.HasError reqV.State.diags = false →
          Diagnostics.HasError (Diagnostics.Append respV.Diagnostics reqV.State.diags)
            = Diagnostics.HasError respV.Diagnostics) := by
  refine ⟨?_, ?_, ?_, ?_⟩
  · intro resS msgS hentry hS
    simp [resourceNetboxSitev6.Read, hentry, hS]
  · intro resV msgV hV
    simp [resourceNetboxVirtualMachineV6.Read, hV]
  · intro hentry hdec
    rw [Diagnostics.HasError_Append, hentry, hdec]
    rfl
  · intro hdec
    rw [Diagnostics.HasError_Append, hdec, Bool.or_false]

/-- Witness for C1: a tracked site read against a remote that answers 404 to every
call, and a tracked virtual machine read against a remote on which only the
virtual machine is gone (the site read there succeeds). -/
theorem read_not_found_removes_resource_witness :
    resourceNetboxSitev6.Read ⟨some (failingRemote notFound404)⟩
        ⟨⟨describedSiteState, []⟩⟩ ⟨[], some describedSiteState⟩
        = ⟨[RemoteCall.sitesRead 1], Exit.returned ⟨[], none⟩⟩
      ∧ resourceNetboxVirtualMachineV6.Read ⟨some vmGoneRemote⟩
        ⟨⟨trackedVM, []⟩⟩ ⟨[], some trackedVM⟩
        = ⟨[RemoteCall.vmRead 5], Exit.returned ⟨[], none⟩⟩ :=
  have hS := read_not_found_removes_resource (failingRemote notFound404)
    ⟨⟨describedSiteState, []⟩⟩ ⟨[], some describedSiteState⟩
    ⟨⟨trackedVM, []⟩⟩ ⟨[], some trackedVM⟩
  have hV := read_not_found_removes_resource vmGoneRemote
    ⟨⟨describedSiteState, []⟩⟩ ⟨[], some describedSiteState⟩
    ⟨⟨trackedVM, []⟩⟩ ⟨[], some trackedVM⟩
  ⟨hS.1 none "[GET /dcim/sites/(id)/][404] default" rfl rfl,
    hV.2.1 none "[GET /dcim/sites/(id)/][404] default" rfl⟩

/-- C2, evaluated on the code. A tracked site and a tracked virtual machine are
read against a remote whose get-by-identifier call fails with HTTP 500, and
against one that cannot be reached: in all four runs `Read` issues the call and
then panics (`res` is nil and `res.GetPayload()` dereferences it); it does not
return, and no diagnostic is reported. -/
theorem read_other_failure_panics :
    resourceNetboxSitev6.Read ⟨some (failingRemote serverError500)⟩
        ⟨⟨describedSiteState, []⟩⟩ ⟨[], some describedSiteState⟩
        = ⟨[RemoteCall.sitesRead 1], Exit.panicked⟩
      ∧ resourceNetboxSitev6.Read ⟨some (failingRemote connectionRefused)⟩
        ⟨⟨describedSiteState, []⟩⟩ ⟨[], some describedSiteState⟩
        = ⟨[RemoteCall.sitesRead 1], Exit.panicked⟩
      ∧ resourceNetboxVirtualMachineV6.Read ⟨some (failingRemote serverError500)⟩
        ⟨⟨trackedVM, []⟩⟩ ⟨[], some trackedVM⟩
        = ⟨[RemoteCall.vmRead 5], Exit.panicked⟩
      ∧ resourceNetboxVirtualMachineV6.Read ⟨some (failingRemote connectionRefused)⟩
        ⟨⟨trackedVM, []⟩⟩ ⟨[], some trackedVM⟩
        = ⟨[RemoteCall.vmRead 5], Exit.panicked⟩ := by
  refine ⟨?_, ?_, ?_, ?_⟩ <;> rfl

/-- Every failure of the get-by-identifier call other than the typed 404, returned
by the client as `(nil, err)`, makes the site `Read` panic. -/
theorem resourceNetboxSitev6.Read_panics_of_failure (api : NetBoxAPI)
    (request : ReadRequest netboxSiteModel) (response : Response netboxSiteModel)
    (e : GoError) (hentry : Diagnostics.HasError response.Diagnostics = false)
    (hcall : api.DcimSitesRead request.State.data.ID.ValueInt64 = CallResult.failure e)
    (hne : ∀ message, e ≠ GoError.Default 404 message) :
    (resourceNetboxSitev6.Read ⟨some api⟩ request response).exit = Exit.panicked := by
  cases e with
  | Default code message =>
    have hcode : code ≠ 404 := fun h => hne message (by rw [h])
    simp [resourceNetboxSitev6.Read, hentry, hcall, CallResult.failure, hcode]
  | other message =>
    simp [resourceNetboxSitev6.Read, hentry, hcall, CallResult.failure]

/-- C3 (idempotent delete). With a configured client and no error on entry, when
the remote delete call of a site returns the typed default error with HTTP code
404, `Delete` issues that one call and returns with the resource removed from the
state; the diagnostics on return are those on entry followed by those of decoding
the stored state, so `Delete` adds none, and when decoding raised no error the
response carries no error. -/
theorem delete_not_found_is_success (api : NetBoxAPI)
    (request : DeleteRequest netboxSiteModel) (response : Response netboxSiteModel)
    (res : Option Unit) (message : String)
    (hentry : Diagnostics.HasError response.Diagnostics = false)
    (hcall : api.DcimSitesDelete request.State.data.ID.ValueInt64
      = ⟨res, some (GoError.Default 404 message)⟩) :
    resourceNetboxSitev6.Delete ⟨some api⟩ request response
        = ⟨[RemoteCall.sitesDelete request.State.data.ID.ValueInt64],
            Exit.returned
              ⟨Diagnostics.Append response.Diagnostics request.State.diags, none⟩⟩
      ∧ (Diagnostics.HasError request.State.diags = false →
          Diagnostics.HasError
            (Diagnostics.Append response.Diagnostics request.State.diags) = false) := by
  refine ⟨?_, ?_⟩
  · simp [resourceNetboxSitev6.Delete, hentry, hcall]
  · intro hdec
    rw [Diagnostics.HasError_Append, hentry, hdec]
    rfl

/-- Witness for C3: a tracked site deleted against a remote that answers 404. -/
theorem delete_not_found_is_success_witness :
    resourceNetboxSitev6.Delete ⟨some (failingRemote notFound404)⟩
        ⟨⟨describedSiteState, []⟩⟩ ⟨[], some describedSiteState⟩
        = ⟨[RemoteCall.sitesDelete 1], Exit.returned ⟨[], none⟩⟩ :=
  (delete_not_found_is_success (failingRemote notFound404)
    ⟨⟨describedSiteState, []⟩⟩ ⟨[], some describedSiteState⟩ none
    "[GET /dcim/sites/(id)/][404] default" rfl rfl).1

/-- C4, evaluated on the code. A tracked site is deleted against a remote that
cannot be reached (the error is not a typed default response): `Delete` issues the
call and returns the response as it was, without any diagnostic. Against a remote
that answers HTTP 500 as the typed default response, `Delete` does report an
error and leaves the state in place. -/
theorem delete_transport_failure_is_silent :
    resourceNetboxSitev6.Delete ⟨some (failingRemote connectionRefused)⟩
        ⟨⟨describedSiteState, []⟩⟩ ⟨[], some describedSiteState⟩
        = ⟨[RemoteCall.sitesDelete 1], Exit.returned ⟨[], some describedSiteState⟩⟩
      ∧ resourceNetboxSitev6.Delete ⟨some (failingRemote serverError500)⟩
        ⟨⟨describedSiteState, []⟩⟩ ⟨[], some describedSiteState⟩
        = ⟨[RemoteCall.sitesDelete 1], Exit.returned
            ⟨[⟨Severity.error, "Unable to delete the site.",
                "[GET /dcim/sites/(id)/][500] default"⟩], some describedSiteState⟩⟩ := by
  refine ⟨?_, ?_⟩ <;> rfl

/-- For a typed default response with a code other than 404, the site `Delete`
reports an error and leaves the state as it was. -/
theorem resourceNetboxSitev6.Delete_reports_typed_failure (api : NetBoxAPI)
    (request : DeleteRequest netboxSiteModel) (response : Response netboxSiteModel)
    (res : Option Unit) (code : Int) (message : String)
    (hentry : Diagnostics.HasError response.Diagnostics = false)
    (hcode : code ≠ 404)
    (hcall : api.DcimSitesDelete request.State.data.ID.ValueInt64
      = ⟨res, some (GoError.Default code message)⟩) :
    ∃ diags, resourceNetboxSitev6.Delete ⟨some api⟩ request response
        = ⟨[RemoteCall.sitesDelete request.State.data.ID.ValueInt64],
            Exit.returned ⟨diags, response.State⟩⟩
      ∧ Diagnostics.HasError diags = true := by
  refine ⟨Diagnostics.AddError
    (Diagnostics.Append response.Diagnostics request.State.diags)
    "Unable to delete the site." message, ?_, Diagnostics.HasError_AddError _ _ _⟩
  simp [resourceNetboxSitev6.Delete, hentry, hcall, hcode, GoError.Error]

/-- When the delete call fails with an error that is not a typed default response,
the site `Delete` returns without adding a diagnostic. -/
theorem resourceNetboxSitev6.Delete_ignores_untyped_failure (api : NetBoxAPI)
    (request : DeleteRequest netboxSiteModel) (response : Response netboxSiteModel)
    (res : Option Unit) (message : String)
    (hentry : Diagnostics.HasError response.Diagnostics = false)
    (hcall : api.DcimSitesDelete request.State.data.ID.ValueInt64
      = ⟨res, some (GoError.other message)⟩) :
    resourceNetboxSitev6.Delete ⟨some api⟩ request response
      = ⟨[RemoteCall.sitesDelete request.State.data.ID.ValueInt64],
          Exit.returned
            ⟨Diagnostics.Append response.Diagnostics request.State.diags,
              response.State⟩⟩ := by
  simp [resourceNetboxSitev6.Delete, hentry, hcall]

/-! ## Tag resolution -/

/-- The loop of the tag resolution, run on the declared names themselves, does
classify by cardinality: no match and two matches end with an error in the local
diagnostics after one lookup bounded to 2, one match appends the matched tag. -/
theorem tagLoop_classifies :
    tagLoop minimalRemote [TFValue.known "missing"] [] [] []
        = ⟨[RemoteCall.tagsList (some "missing") (some 2)],
            Exit.returned ([], [⟨Severity.error,
              "Error retrieving tag " ++ goQuote "missing" ++ " from netbox",
              "Could not locate referenced tag " ++ goQuote "missing" ++ " in netbox"⟩])⟩
      ∧ tagLoop ambiguousRemote [TFValue.known "web"] [] [] []
        = ⟨[RemoteCall.tagsList (some "web") (some 2)],
            Exit.returned ([], [⟨Severity.error,
              "Error retrieving tag " ++ goQuote "web" ++ " from netbox",
              "Could not map tag " ++ goQuote "web" ++ " to unique tag in netbox"⟩])⟩
      ∧ tagLoop minimalRemote [TFValue.known "web"] [] [] []
        = ⟨[RemoteCall.tagsList (some "web") (some 2)],
            Exit.returned ([⟨some "web", some "web"⟩], [])⟩ := by
  refine ⟨?_, ?_, ?_⟩ <;> decide

/-- The tag resolution never enters its loop: for every client, every set of names
and every diagnostics it issues no lookup, returns the empty list and leaves its
local diagnostics as received. -/
theorem getNestedTagListFromResourceDataSetV6_eq (client : NetBoxAPI)
    (d : TFValue (List String)) (diag : Diagnostics) :
    getNestedTagListFromResourceDataSetV6 client d diag
      = ⟨[], Exit.returned ([], diag)⟩ := by
  simp [getNestedTagListFromResourceDataSetV6, makeSlice, tagLoop]

/-- C5, evaluated on the code. A name with no remote match, a name with two remote
matches, and a name with exactly one remote match: in each case
`getNestedTagListFromResourceDataSetV6` issues no lookup, records no error and
returns the empty list (for the matching name: no entry, where the claim wants
one). -/
theorem tag_resolution_ignores_names :
    getNestedTagListFromResourceDataSetV6 minimalRemote (TFValue.known ["missing"]) []
        = ⟨[], Exit.returned ([], [])⟩
      ∧ getNestedTagListFromResourceDataSetV6 ambiguousRemote (TFValue.known ["web"]) []
        = ⟨[], Exit.returned ([], [])⟩
      ∧ getNestedTagListFromResourceDataSetV6 minimalRemote (TFValue.known ["web"]) []
        = ⟨[], Exit.returned ([], [])⟩ := by
  refine ⟨?_, ?_, ?_⟩ <;> rfl

/-- The outbound mapping never fails and never issues a remote call, and its tag
list is empty whatever the declared tags. -/
theorem generateWritableSite_tags (data : netboxSiteModel) (api : NetBoxAPI)
    (diag : Diagnostics) :
    ∃ site, generateWritableSite data api diag = ⟨[], Exit.returned site⟩
      ∧ site.Tags = [] := by
  unfold generateWritableSite
  cases hT : data.Tags <;>
    simp [TFValue.IsNull, getNestedTagListFromResourceDataSetV6_eq]

/-- C6, evaluated on the code. A site is declared with the tags `web` and
`missing`; the remote has no tag `missing`. `Create` issues the remote create-site
call (its only remote call, with an empty tag list), reports no diagnostic, and
stores the new state. -/
theorem create_with_unresolved_tag_writes :
    resourceNetboxSitev6.Create ⟨some minimalRemote⟩ ⟨⟨taggedSitePlan, []⟩⟩ ⟨[], none⟩
      = ⟨[RemoteCall.sitesCreate minimalPayload],
          Exit.returned ⟨[], some { taggedSitePlan with ID := TFValue.known 7 }⟩⟩ := by
  rfl

/-! ## Update -/

/-- The site `Update` does not look at the plan: two requests with the same prior
state give the same run. -/
theorem resourceNetboxSitev6.Update_ignores_plan (r : resourceNetboxSitev6)
    (plan₁ plan₂ state : Stored netboxSiteModel) (response : Response netboxSiteModel) :
    resourceNetboxSitev6.Update r ⟨plan₁, state⟩ response
      = resourceNetboxSitev6.Update r ⟨plan₂, state⟩ response := by
  rfl

/-- C7, evaluated on the code. The tracked site of the first step of
`TestAccNetboxSite_fieldUpdateV6` is updated with the plan of the second step
(only `name` and `slug` declared): the remote update call succeeds, `Update`
returns without a diagnostic, and the resulting state still holds the old
description, addresses, latitude and longitude; none of them is null. -/
theorem update_keeps_omitted_attributes :
    (resourceNetboxSitev6.Update ⟨some minimalRemote⟩
        ⟨⟨clearedSitePlan, []⟩, ⟨describedSiteState, []⟩⟩
        ⟨[], some describedSiteState⟩).exit
        = Exit.returned ⟨[], some describedSiteState⟩
      ∧ describedSiteState.Description = TFValue.known "Test site description"
      ∧ describedSiteState.PhysicalAddress = TFValue.known "Physical address"
      ∧ describedSiteState.ShippingAddress = TFValue.known "Shipping address"
      ∧ describedSiteState.Latitude = TFValue.known ⟨4623014517045263725⟩
      ∧ describedSiteState.Longitude = TFValue.known ⟨13846949503853460845⟩
      ∧ clearedSitePlan.Description = TFValue.null
      ∧ clearedSitePlan.PhysicalAddress = TFValue.null
      ∧ clearedSitePlan.ShippingAddress = TFValue.null
      ∧ clearedSitePlan.Latitude = TFValue.null
      ∧ clearedSitePlan.Longitude = TFValue.null := by
  refine ⟨?_, ?_, ?_, ?_, ?_, ?_, ?_, ?_, ?_, ?_, ?_⟩ <;> rfl

/-- C8, evaluated on the code. In the same update, the payload of the remote
update call is the outbound mapping of the prior state, and it differs from the
outbound mapping of the plan (which is `minimalPayload`). -/
theorem update_sends_prior_state :
    (resourceNetboxSitev6.Update ⟨some minimalRemote⟩
        ⟨⟨clearedSitePlan, []⟩, ⟨describedSiteState, []⟩⟩
        ⟨[], some describedSiteState⟩).calls
        = [RemoteCall.sitesUpdate 1
            { minimalPayload with
              Description := "Test site description"
              PhysicalAddress := "Physical address"
              ShippingAddress := "Shipping address"
              Latitude := some ⟨4623014517045263725⟩
              Longitude := some ⟨13846949503853460845⟩ }]
      ∧ generateWritableSite describedSiteState minimalRemote []
        = ⟨[], Exit.returned
            { minimalPayload with
              Description := "Test site description"
              PhysicalAddress := "Physical address"
              ShippingAddress := "Shipping address"
              Latitude := some ⟨4623014517045263725⟩
              Longitude := some ⟨13846949503853460845⟩ }⟩
      ∧ generateWritableSite clearedSitePlan minimalRemote []
        = ⟨[], Exit.returned minimalPayload⟩
      ∧ (resourceNetboxSitev6.Update ⟨some minimalRemote⟩
        ⟨⟨clearedSitePlan, []⟩, ⟨describedSiteState, []⟩⟩
        ⟨[], some describedSiteState⟩).calls
        ≠ [RemoteCall.sitesUpdate 1 minimalPayload] := by
  refine ⟨?_, ?_, ?_, ?_⟩
  · rfl
  · rfl
  · rfl
  · decide

/-! ## Inbound mapping -/

/-- The site `Read` on success: with a configured client, no error on entry, and a
remote that returns the site `site` with a status object, `Read` returns with the
state rebuilt from the prior state `data` field by field as the code does. -/
theorem resourceNetboxSitev6.Read_success (api : NetBoxAPI)
    (request : ReadRequest netboxSiteModel) (response : Response netboxSiteModel)
    (site : Site) (status : StatusLabel)
    (hentry : Diagnostics.HasError response.Diagnostics = false)
    (hcall : api.DcimSitesRead request.State.data.ID.ValueInt64 = CallResult.success site)
    (hstatus : site.Status = some status) :
    resourceNetboxSitev6.Read ⟨some api⟩ request response
      = ⟨[RemoteCall.sitesRead request.State.data.ID.ValueInt64],
          Exit.returned
            ⟨Diagnostics.Append response.Diagnostics request.State.diags,
              some { request.State.data with
                Name := types.PointerValue site.Name
                Slug := types.PointerValue site.Slug
                Status := types.PointerValue status.Value
                Description :=
                  if site.Description ≠ "" then types.Value site.Description
                  else request.State.data.Description
                Facility :=
                  if site.Facility ≠ "" then types.Value site.Facility
                  else request.State.data.Facility
                Longitude := types.PointerValue site.Longitude
                Latitude := types.PointerValue site.Latitude
                PhysicalAddress := types.Value site.PhysicalAddress
                ShippingAddress := types.Value site.ShippingAddress
                RegionID := match site.Region with
                  | some region => types.Value region.ID
                  | none => request.State.data.RegionID
                GroupID := match site.Group with
                  | some group => types.Value group.ID
                  | none => request.State.data.GroupID
                TenantID := match site.Tenant with
                  | some tenant => types.Value tenant.ID
                  | none => request.State.data.TenantID
                Timezone := types.PointerValue site.TimeZone
                ASNIDs := types.Value (getIDsFromNestedASNList site.Asns) }⟩⟩ := by
  simp [resourceNetboxSitev6.Read, hentry, hcall, CallResult.success, hstatus]

/-- C9, evaluated on the code. A tracked site with description, facility and both
addresses set is read against a remote site on which all four are the empty
string. `Read` succeeds; in the resulting state description and facility keep
their previous values, and the two addresses are the stored empty string; none of
the four is null. -/
theorem read_cleared_text_fields :
    (resourceNetboxSitev6.Read ⟨some (remoteHolding (echoSite 1 minimalPayload) remoteVM [])⟩
        ⟨⟨textSiteState, []⟩⟩ ⟨[], some textSiteState⟩).exit
        = Exit.returned ⟨[], some { textSiteState with
            Longitude := TFValue.null
            Latitude := TFValue.null
            PhysicalAddress := TFValue.known ""
            ShippingAddress := TFValue.known ""
            ASNIDs := TFValue.known [] }⟩
      ∧ (echoSite 1 minimalPayload).Description = ""
      ∧ (echoSite 1 minimalPayload).Facility = ""
      ∧ (echoSite 1 minimalPayload).PhysicalAddress = ""
      ∧ (echoSite 1 minimalPayload).ShippingAddress = ""
      ∧ textSiteState.Description = TFValue.known "Test site description"
      ∧ textSiteState.Facility = TFValue.known "Building A" := by
  refine ⟨?_, ?_, ?_, ?_, ?_, ?_, ?_⟩ <;> rfl

/-- C10, evaluated on the code. A site declared with only `name`, `slug` and the
default status is created: the payload sent is `minimalPayload` and the state is
the declaration with identifier 7. Reading that state against a remote that
returns the echo of the sent payload gives back name, slug and status, and leaves
description, facility, longitude, latitude, region, group, tenant and timezone
null, but physical_address and shipping_address are the stored empty string. -/
theorem minimal_site_round_trip :
    resourceNetboxSitev6.Create ⟨some minimalRemote⟩ ⟨⟨minimalSitePlan, []⟩⟩ ⟨[], none⟩
        = ⟨[RemoteCall.sitesCreate minimalPayload],
            Exit.returned ⟨[], some { minimalSitePlan with ID := TFValue.known 7 }⟩⟩
      ∧ minimalRemote.DcimSitesRead 7 = CallResult.success (echoSite 7 minimalPayload)
      ∧ resourceNetboxSitev6.Read ⟨some minimalRemote⟩
          ⟨⟨{ minimalSitePlan with ID := TFValue.known 7 }, []⟩⟩
          ⟨[], some { minimalSitePlan with ID := TFValue.known 7 }⟩
        = ⟨[RemoteCall.sitesRead 7],
            Exit.returned ⟨[], some { minimalSitePlan with
              ID := TFValue.known 7
              PhysicalAddress := TFValue.known ""
              ShippingAddress := TFValue.known ""
              ASNIDs := TFValue.known [] }⟩⟩
      ∧ minimalSitePlan.PhysicalAddress = TFValue.null
      ∧ minimalSitePlan.ShippingAddress = TFValue.null := by
  refine ⟨?_, ?_, ?_, ?_, ?_⟩ <;> rfl

/-! ## Outbound mapping -/

/-- The guard on `IsNull` around `ValueString` changes nothing: null reads as the
empty string. -/
theorem guarded_ValueString (v : TFValue String) :
    (if (!v.IsNull) = true then v.ValueString else "") = v.ValueString := by
  cases v <;> rfl

/-- The guard on `IsNull` around `ValueStringPointer` changes nothing. -/
theorem guarded_ValueStringPointer (v : TFValue String) :
    (if (!v.IsNull) = true then v.ValueStringPointer else none) = v.ValueStringPointer := by
  cases v <;> rfl

/-- The guard on `IsNull` around `ValueInt64Pointer` changes nothing. -/
theorem guarded_ValueInt64Pointer (v : TFValue Int) :
    (if (!v.IsNull) = true then v.ValueInt64Pointer else none) = v.ValueInt64Pointer := by
  cases v <;> rfl

/-- The guard on `IsNull` around `ValueFloat64Pointer` changes nothing. -/
theorem guarded_ValueFloat64Pointer (v : TFValue float64) :
    (if (!v.IsNull) = true then v.ValueFloat64Pointer else none)
      = v.ValueFloat64Pointer := by
  cases v <;> rfl

/-- `toInt64ListV6` never enters its loop: the result is empty for every set. -/
theorem toInt64ListV6_eq (a : TFValue (List Int)) : toInt64ListV6 a = [] := by
  simp [toInt64ListV6, makeSlice]

/-- The payload `generateWritableSite` builds, for every declaration: no remote
call is issued, the function returns, and each field is the accessor of the
declared attribute; the tag list and the ASN list are empty. -/
theorem generateWritableSite_eq (data : netboxSiteModel) (api : NetBoxAPI)
    (diag : Diagnostics) :
    generateWritableSite data api diag
      = ⟨[], Exit.returned
          { Name := data.Name.ValueStringPointer
            Slug := data.Slug.ValueStringPointer
            Status := data.Status.ValueString
            Description := data.Description.ValueString
            Facility := data.Facility.ValueString
            Longitude := data.Longitude.ValueFloat64Pointer
            Latitude := data.Latitude.ValueFloat64Pointer
            PhysicalAddress := data.PhysicalAddress.ValueString
            ShippingAddress := data.ShippingAddress.ValueString
            Region := data.RegionID.ValueInt64Pointer
            Group := data.GroupID.ValueInt64Pointer
            Tenant := data.TenantID.ValueInt64Pointer
            Tags := []
            TimeZone := data.Timezone.ValueStringPointer
            Asns := [] }⟩ := by
  unfold generateWritableSite
  simp only [getNestedTagListFromResourceDataSetV6_eq, toInt64ListV6_eq,
    guarded_ValueString, guarded_ValueStringPointer,
    guarded_ValueInt64Pointer, guarded_ValueFloat64Pointer]
  cases hT : data.Tags <;> cases hA : data.ASNIDs <;> simp [TFValue.IsNull]

/-- The virtual machine `Read` on success: with a configured client and a remote
that returns the machine `vm` with a status object, `Read` returns with the state
rebuilt from the prior state as the code does. -/
theorem resourceNetboxVirtualMachineV6.Read_success_vm (api : NetBoxAPI)
    (request : ReadRequest netboxVirtualMachineModel)
    (response : Response netboxVirtualMachineModel)
    (vm : VirtualMachineWithConfigContext) (status : StatusLabel)
    (hcall : api.VirtualizationVirtualMachinesRead request.State.data.ID.ValueInt64
      = CallResult.success vm)
    (hstatus : vm.Status = some status) :
    resourceNetboxVirtualMachineV6.Read ⟨some api⟩ request response
      = ⟨[RemoteCall.vmRead request.State.data.ID.ValueInt64],
          Exit.returned
            ⟨Diagnostics.Append response.Diagnostics request.State.diags,
              some { request.State.data with
                Name := types.PointerValue vm.Name
                ClusterID := match vm.Cluster with
                  | some cluster => types.Value cluster.ID
                  | none => TFValue.null
                Status := types.PointerValue status.Value }⟩⟩ := by
  simp [resourceNetboxVirtualMachineV6.Read, hcall, CallResult.success, hstatus]

/-- The payload the virtual machine `Create` sends, whenever it reaches the remote
call: with a configured client and no error after decoding the plan, the only
remote call is the create call with this payload. -/
theorem resourceNetboxVirtualMachineV6.Create_calls (api : NetBoxAPI)
    (request : CreateRequest netboxVirtualMachineModel)
    (response : Response netboxVirtualMachineModel)
    (hentry : Diagnostics.HasError
      (Diagnostics.Append response.Diagnostics request.Plan.diags) = false) :
    (resourceNetboxVirtualMachineV6.Create ⟨some api⟩ request response).calls
      = [RemoteCall.vmCreate
          { Name := request.Plan.data.Name.ValueStringPointer
            Status := request.Plan.data.Status.String
            Cluster := request.Plan.data.ClusterID.ValueInt64Pointer }] := by
  simp only [resourceNetboxVirtualMachineV6.Create, hentry, guarded_ValueInt64Pointer]
  cases (api.VirtualizationVirtualMachinesCreate
      { Name := request.Plan.data.Name.ValueStringPointer
        Status := request.Plan.data.Status.String
        Cluster := request.Plan.data.ClusterID.ValueInt64Pointer }) with
  | mk res err =>
    cases err with
    | some e => simp
    | none => cases res <;> simp

/-- C11 (integer foreign keys). For every integer `n`, each part under its own
premise only. Outbound, with no premise at all (any client, any remote): a
declaration with region_id, group_id or tenant_id equal to `n` is mapped by
`generateWritableSite` to a payload whose Region, Group or Tenant is `n`.
Inbound: a site `Read` whose remote call succeeds on a site whose nested region,
group or tenant object has identifier `n` stores region_id, group_id or tenant_id
equal to `n`. The virtual machine `Create`, whenever it reaches its remote call,
sends Cluster `n` for a declared cluster_id `n`; a virtual machine `Read` whose
remote call succeeds on a machine whose nested cluster has identifier `n` stores
cluster_id `n`. -/
theorem foreign_keys_round_trip (n : Int) (api : NetBoxAPI)
    (data : netboxSiteModel) (diag : Diagnostics)
    (request : ReadRequest netboxSiteModel) (response : Response netboxSiteModel)
    (vmData : netboxVirtualMachineModel) (vmDiags : List Diagnostic)
    (vmCreateResponse : Response netboxVirtualMachineModel)
    (vmRequest : ReadRequest netboxVirtualMachineModel)
    (vmResponse : Response netboxVirtualMachineModel) :
    (∃ w, generateWritableSite { data with RegionID := TFValue.known n } api diag
          = ⟨[], Exit.returned w⟩ ∧ w.Region = some n)
      ∧ (∃ w, generateWritableSite { data with GroupID := TFValue.known n } api diag
          = ⟨[], Exit.returned w⟩ ∧ w.Group = some n)
      ∧ (∃ w, generateWritableSite { data with TenantID := TFValue.known n } api diag
          = ⟨[], Exit.returned w⟩ ∧ w.Tenant = some n)
      ∧ (∀ (site : Site) (status : StatusLabel),
          Diagnostics.HasError response.Diagnostics = false →
          api.DcimSitesRead request.State.data.ID.ValueInt64 = CallResult.success site →
          site.Status = some status →
          ∃ st, (resourceNetboxSitev6.Read ⟨some api⟩ request response).exit
              = Exit.returned
                  ⟨Diagnostics.Append response.Diagnostics request.State.diags, some st⟩
            ∧ (site.Region = some ⟨n⟩ → st.RegionID = TFValue.known n)
            ∧ (site.Group = some ⟨n⟩ → st.GroupID = TFValue.known n)
            ∧ (site.Tenant = some ⟨n⟩ → st.TenantID = TFValue.known n))
      ∧ (Diagnostics.HasError
            (Diagnostics.Append vmCreateResponse.Diagnostics vmDiags) = false →
          ∃ w, (resourceNetboxVirtualMachineV6.Create ⟨some api⟩
              ⟨⟨{ vmData with ClusterID := TFValue.known n }, vmDiags⟩⟩
              vmCreateResponse).calls
              = [RemoteCall.vmCreate w] ∧ w.Cluster = some n)
      ∧ (∀ (vm : VirtualMachineWithConfigContext) (vmStatus : StatusLabel),
          api.VirtualizationVirtualMachinesRead vmRequest.State.data.ID.ValueInt64
            = CallResult.success vm →
          vm.Status = some vmStatus →
          ∃ st, (resourceNetboxVirtualMachineV6.Read ⟨some api⟩ vmRequest vmResponse).exit
              = Exit.returned
                  ⟨Diagnostics.Append vmResponse.Diagnostics vmRequest.State.diags,
                    some st⟩
            ∧ (vm.Cluster = some ⟨n⟩ → st.ClusterID = TFValue.known n)) := by
  refine ⟨⟨_, generateWritableSite_eq _ api diag, rfl⟩,
    ⟨_, generateWritableSite_eq _ api diag, rfl⟩,
    ⟨_, generateWritableSite_eq _ api diag, rfl⟩, ?_, ?_, ?_⟩
  · intro site status hentry hcall hstatus
    rw [resourceNetboxSitev6.Read_success api request response site status hentry hcall
      hstatus]
    refine ⟨_, rfl, ?_, ?_, ?_⟩ <;> intro h <;> simp [h, types.Value]
  · intro hvmEntry
    exact ⟨_, resourceNetboxVirtualMachineV6.Create_calls api _ vmCreateResponse hvmEntry,
      rfl⟩
  · intro vm vmStatus hvmCall hvmStatus
    rw [resourceNetboxVirtualMachineV6.Read_success_vm api vmRequest vmResponse vm vmStatus
      hvmCall hvmStatus]
    refine ⟨_, rfl, ?_⟩
    intro h
    simp [h, types.Value]

/-- Witness for C11 with `n = 3`. The outbound mapping and the virtual machine
`Create` are run against a remote on which every call fails (nothing is
readable); the two `Read`s against a remote whose site is linked to region, group
and tenant 3 and whose virtual machine is in cluster 3. -/
theorem foreign_keys_round_trip_witness :
    (∃ w, generateWritableSite { minimalSitePlan with RegionID := TFValue.known 3 }
          (failingRemote connectionRefused) [] = ⟨[], Exit.returned w⟩
        ∧ w.Region = some 3)
      ∧ (∃ st, (resourceNetboxSitev6.Read ⟨some linkedRemote⟩
            ⟨⟨describedSiteState, []⟩⟩ ⟨[], some describedSiteState⟩).exit
            = Exit.returned ⟨[], some st⟩
          ∧ st.RegionID = TFValue.known 3 ∧ st.GroupID = TFValue.known 3
          ∧ st.TenantID = TFValue.known 3)
      ∧ (∃ w, (resourceNetboxVirtualMachineV6.Create
            ⟨some (failingRemote connectionRefused)⟩
            ⟨⟨{ declaredVM with ClusterID := TFValue.known 3 }, []⟩⟩ ⟨[], none⟩).calls
            = [RemoteCall.vmCreate w] ∧ w.Cluster = some 3)
      ∧ (∃ st, (resourceNetboxVirtualMachineV6.Read ⟨some linkedRemote⟩
            ⟨⟨trackedVM, []⟩⟩ ⟨[], some trackedVM⟩).exit
            = Exit.returned ⟨[], some st⟩
          ∧ st.ClusterID = TFValue.known 3) :=
  have down := foreign_keys_round_trip 3 (failingRemote connectionRefused)
    minimalSitePlan [] ⟨⟨describedSiteState, []⟩⟩ ⟨[], some describedSiteState⟩
    declaredVM [] ⟨[], none⟩ ⟨⟨trackedVM, []⟩⟩ ⟨[], some trackedVM⟩
  have up := foreign_keys_round_trip 3 linkedRemote
    minimalSitePlan [] ⟨⟨describedSiteState, []⟩⟩ ⟨[], some describedSiteState⟩
    declaredVM [] ⟨[], none⟩ ⟨⟨trackedVM, []⟩⟩ ⟨[], some trackedVM⟩
  ⟨down.1,
    (let ⟨st, he, hr, hg, ht⟩ :=
      up.2.2.2.1 linkedSite ⟨some "active", some "active"⟩ rfl rfl rfl
     ⟨st, he, hr rfl, hg rfl, ht rfl⟩),
    down.2.2.2.2.1 rfl,
    (let ⟨st, he, hc⟩ :=
      up.2.2.2.2.2 { remoteVM with Cluster := some ⟨3⟩ } ⟨some "Active", some "active"⟩
        rfl rfl
     ⟨st, he, hc rfl⟩)⟩

/-- C12, evaluated on the code. A site is declared with the one ASN identifier 12,
as in `TestAccNetboxSiteV6_basic`: `toInt64ListV6` returns the empty list, the
payload built by `generateWritableSite` has no ASN, and `Create` sends that
payload. -/
theorem asn_ids_are_dropped :
    toInt64ListV6 (TFValue.known [12]) = []
      ∧ generateWritableSite asnSitePlan minimalRemote []
        = ⟨[], Exit.returned minimalPayload⟩
      ∧ minimalPayload.Asns = []
      ∧ (resourceNetboxSitev6.Create ⟨some minimalRemote⟩ ⟨⟨asnSitePlan, []⟩⟩ ⟨[], none⟩).calls
        = [RemoteCall.sitesCreate minimalPayload] := by
  refine ⟨?_, ?_, ?_, ?_⟩ <;> rfl

/-- C16 (outbound optional-scalar rule). For every declaration,
`generateWritableSite` returns a payload, without a remote call, in which
description, facility, physical_address and shipping_address are the declared
string when the attribute is known and the empty string when it is null;
longitude, latitude and timezone are a pointer to the declared value when known
and nil when null; name and slug are copied without a guard. (An unknown value,
which is not null, is copied as the accessor gives it: the zero value.) -/
theorem outbound_optional_scalar_rule (data : netboxSiteModel) (api : NetBoxAPI)
    (diag : Diagnostics) :
    ∃ w, generateWritableSite data api diag = ⟨[], Exit.returned w⟩
      ∧ w.Name = (match data.Name with
          | TFValue.known v => some v
          | TFValue.unknown => some ""
          | TFValue.null => none)
      ∧ w.Slug = (match data.Slug with
          | TFValue.known v => some v
          | TFValue.unknown => some ""
          | TFValue.null => none)
      ∧ w.Description = (match data.Description with
          | TFValue.known v => v
          | TFValue.unknown => ""
          | TFValue.null => "")
      ∧ w.Facility = (match data.Facility with
          | TFValue.known v => v
          | TFValue.unknown => ""
          | TFValue.null => "")
      ∧ w.PhysicalAddress = (match data.PhysicalAddress with
          | TFValue.known v => v
          | TFValue.unknown => ""
          | TFValue.null => "")
      ∧ w.ShippingAddress = (match data.ShippingAddress with
          | TFValue.known v => v
          | TFValue.unknown => ""
          | TFValue.null => "")
      ∧ w.Longitude = (match data.Longitude with
          | TFValue.known v => some v
          | TFValue.unknown => some ⟨0⟩
          | TFValue.null => none)
      ∧ w.Latitude = (match data.Latitude with
          | TFValue.known v => some v
          | TFValue.unknown => some ⟨0⟩
          | TFValue.null => none)
      ∧ w.TimeZone = (match data.Timezone with
          | TFValue.known v => some v
          | TFValue.unknown => some ""
          | TFValue.null => none) := by
  refine ⟨_, generateWritableSite_eq data api diag, ?_, ?_, ?_, ?_, ?_, ?_, ?_, ?_, ?_⟩
  · cases data.Name <;> rfl
  · cases data.Slug <;> rfl
  · cases data.Description <;> rfl
  · cases data.Facility <;> rfl
  · cases data.PhysicalAddress <;> rfl
  · cases data.ShippingAddress <;> rfl
  · cases data.Longitude <;> rfl
  · cases data.Latitude <;> rfl
  · cases data.Timezone <;> rfl

/-! ## The virtual machine resource -/

/-- C17, evaluated on the code. The virtual machine of
`testAccVirtualMachineV6Config` (name `vm1`, status `active`) is created: the
payload sent has the declared name, but its status is the quoted rendering of the
declared status, 8 characters long, not the 6-character string `active`. -/
theorem vm_create_sends_quoted_status :
    (resourceNetboxVirtualMachineV6.Create ⟨some minimalRemote⟩
        ⟨⟨declaredVM, []⟩⟩ ⟨[], none⟩).calls
        = [RemoteCall.vmCreate ⟨some "vm1", goQuote "active", some 2⟩]
      ∧ (goQuote "active").toList
        = [Char.ofNat 34, 'a', 'c', 't', 'i', 'v', 'e', Char.ofNat 34]
      ∧ (goQuote "active").length = 8
      ∧ goQuote "active" ≠ "active" := by
  refine ⟨?_, ?_, ?_, ?_⟩ <;> decide

/-- The status the virtual machine `Create` sends is never the declared string:
for every known status it is that string between double quotes. -/
theorem vm_status_payload_is_quoted (api : NetBoxAPI)
    (data : netboxVirtualMachineModel) (status : String)
    (response : Response netboxVirtualMachineModel)
    (hentry : Diagnostics.HasError response.Diagnostics = false) :
    (resourceNetboxVirtualMachineV6.Create ⟨some api⟩
        ⟨⟨{ data with Status := TFValue.known status }, []⟩⟩ response).calls
      = [RemoteCall.vmCreate
          { Name := data.Name.ValueStringPointer
            Status := goQuote status
            Cluster := data.ClusterID.ValueInt64Pointer }] := by
  have h := resourceNetboxVirtualMachineV6.Create_calls api
    ⟨⟨{ data with Status := TFValue.known status }, []⟩⟩ response
    (by simpa [Diagnostics.Append] using hentry)
  simpa [TFValue.String] using h

/-- The quoting of control characters: U+0001 is written `\x01`, the tab `\t`,
U+007F `\x7f`, a double quote and a backslash take a backslash. -/
theorem goQuote_control_characters :
    (goQuote (String.mk [Char.ofNat 1])).toList
        = [Char.ofNat 34, Char.ofNat 92, 'x', '0', '1', Char.ofNat 34]
      ∧ (goQuote (String.mk [Char.ofNat 9])).toList
        = [Char.ofNat 34, Char.ofNat 92, 't', Char.ofNat 34]
      ∧ (goQuote (String.mk [Char.ofNat 127])).toList
        = [Char.ofNat 34, Char.ofNat 92, 'x', '7', 'f', Char.ofNat 34]
      ∧ (goQuote (String.mk [Char.ofNat 34, Char.ofNat 92])).toList
        = [Char.ofNat 34, Char.ofNat 92, Char.ofNat 34, Char.ofNat 92, Char.ofNat 92,
            Char.ofNat 34] := by
  refine ⟨?_, ?_, ?_, ?_⟩ <;> decide

/-- C18, evaluated on the code. The virtual machine `Update` and `Delete`, called
for a tracked machine with a configured client, issue no remote call and panic
(`panic("implement me")`): they do not return to the caller. -/
theorem vm_update_delete_panic :
    resourceNetboxVirtualMachineV6.Update ⟨some minimalRemote⟩
        ⟨⟨trackedVM, []⟩, ⟨trackedVM, []⟩⟩ ⟨[], some trackedVM⟩
        = ⟨[], Exit.panicked⟩
      ∧ resourceNetboxVirtualMachineV6.Delete ⟨some minimalRemote⟩
        ⟨⟨trackedVM, []⟩⟩ ⟨[], some trackedVM⟩
        = ⟨[], Exit.panicked⟩ := by
  refine ⟨?_, ?_⟩ <;> rfl

/-- The virtual machine `Update` and `Delete` panic on every request. -/
theorem resourceNetboxVirtualMachineV6.Update_Delete_panic
    (r : resourceNetboxVirtualMachineV6)
    (update : UpdateRequest netboxVirtualMachineModel)
    (delete : DeleteRequest netboxVirtualMachineModel)
    (response : Response netboxVirtualMachineModel) :
    (resourceNetboxVirtualMachineV6.Update r update response).exit = Exit.panicked
      ∧ (resourceNetboxVirtualMachineV6.Delete r delete response).exit = Exit.panicked :=
  ⟨rfl, rfl⟩

/-! ## Create and Update: postconditions -/

/-- C13 (Create postcondition). With a configured client and no error after
decoding the plan, `Create` builds a payload `w` and issues the create call with
it as its only remote call. If that call succeeds, `Create` returns with the state
set to the declared attributes with `id` the identifier of the remote response,
and the diagnostics are those of entry and decoding (none of them an error). If
that call fails, `Create` returns with an error in the diagnostics and the state
as it was on entry. The same holds for the virtual machine `Create` with its
payload `v`. -/
theorem create_postcondition (api : NetBoxAPI)
    (request : CreateRequest netboxSiteModel) (response : Response netboxSiteModel)
    (vmRequest : CreateRequest netboxVirtualMachineModel)
    (vmResponse : Response netboxVirtualMachineModel)
    (hentry : Diagnostics.HasError
      (Diagnostics.Append response.Diagnostics request.Plan.diags) = false)
    (hvmEntry : Diagnostics.HasError
      (Diagnostics.Append vmResponse.Diagnostics vmRequest.Plan.diags) = false) :
    (∃ w, generateWritableSite request.Plan.data api
            (Diagnostics.Append response.Diagnostics request.Plan.diags)
          = ⟨[], Exit.returned w⟩
        ∧ (∀ payload, api.DcimSitesCreate w = ⟨some payload, none⟩ →
            resourceNetboxSitev6.Create ⟨some api⟩ request response
              = ⟨[RemoteCall.sitesCreate w], Exit.returned
                  ⟨Diagnostics.Append response.Diagnostics request.Plan.diags,
                    some { request.Plan.data with ID := TFValue.known payload.ID }⟩⟩)
        ∧ (∀ res e, api.DcimSitesCreate w = ⟨res, some e⟩ →
            ∃ diags, resourceNetboxSitev6.Create ⟨some api⟩ request response
                = ⟨[RemoteCall.sitesCreate w], Exit.returned ⟨diags, response.State⟩⟩
              ∧ Diagnostics.HasError diags = true))
      ∧ (∃ v, v = (⟨vmRequest.Plan.data.Name.ValueStringPointer,
            vmRequest.Plan.data.Status.String,
            vmRequest.Plan.data.ClusterID.ValueInt64Pointer⟩ :
            WritableVirtualMachineWithConfigContext)
        ∧ (∀ payload, api.VirtualizationVirtualMachinesCreate v = ⟨some payload, none⟩ →
            resourceNetboxVirtualMachineV6.Create ⟨some api⟩ vmRequest vmResponse
              = ⟨[RemoteCall.vmCreate v], Exit.returned
                  ⟨Diagnostics.Append vmResponse.Diagnostics vmRequest.Plan.diags,
                    some { vmRequest.Plan.data with ID := TFValue.known payload.ID }⟩⟩)
        ∧ (∀ res e, api.VirtualizationVirtualMachinesCreate v = ⟨res, some e⟩ →
            ∃ diags, resourceNetboxVirtualMachineV6.Create ⟨some api⟩ vmRequest vmResponse
                = ⟨[RemoteCall.vmCreate v], Exit.returned ⟨diags, vmResponse.State⟩⟩
              ∧ Diagnostics.HasError diags = true)) := by
  refine ⟨⟨_, generateWritableSite_eq _ api _, ?_, ?_⟩, ⟨_, rfl, ?_, ?_⟩⟩
  · intro payload hcall
    simp [resourceNetboxSitev6.Create, hentry, generateWritableSite_eq, hcall, types.Value]
  · intro res e hcall
    refine ⟨Diagnostics.AddError
      (Diagnostics.Append response.Diagnostics request.Plan.diags)
      "Error while creating the Site" e.Error, ?_, Diagnostics.HasError_AddError _ _ _⟩
    simp [resourceNetboxSitev6.Create, hentry, generateWritableSite_eq, hcall]
  · intro payload hcall
    simp only [resourceNetboxVirtualMachineV6.Create, hvmEntry, guarded_ValueInt64Pointer]
    simp [hcall, types.Value]
  · intro res e hcall
    refine ⟨Diagnostics.AddError
      (Diagnostics.Append vmResponse.Diagnostics vmRequest.Plan.diags)
      "An error occured while creating the Virtual Machine" e.Error, ?_,
      Diagnostics.HasError_AddError _ _ _⟩
    simp only [resourceNetboxVirtualMachineV6.Create, hvmEntry, guarded_ValueInt64Pointer]
    simp [hcall]

/-- Witness for C13: the minimal site and the declared virtual machine, created on
a remote that accepts them (identifiers 7 and 5) and on a remote that answers 500
to every call. -/
theorem create_postcondition_witness :
    resourceNetboxSitev6.Create ⟨some minimalRemote⟩ ⟨⟨minimalSitePlan, []⟩⟩ ⟨[], none⟩
        = ⟨[RemoteCall.sitesCreate minimalPayload], Exit.returned
            ⟨[], some { minimalSitePlan with ID := TFValue.known 7 }⟩⟩
      ∧ resourceNetboxVirtualMachineV6.Create ⟨some minimalRemote⟩
          ⟨⟨declaredVM, []⟩⟩ ⟨[], none⟩
        = ⟨[RemoteCall.vmCreate ⟨some "vm1", goQuote "active", some 2⟩], Exit.returned
            ⟨[], some { declaredVM with ID := TFValue.known 5 }⟩⟩
      ∧ (∃ diags, resourceNetboxSitev6.Create ⟨some (failingRemote serverError500)⟩
            ⟨⟨minimalSitePlan, []⟩⟩ ⟨[], none⟩
          = ⟨[RemoteCall.sitesCreate minimalPayload], Exit.returned ⟨diags, none⟩⟩
        ∧ Diagnostics.HasError diags = true) :=
  have ok := create_postcondition minimalRemote ⟨⟨minimalSitePlan, []⟩⟩ ⟨[], none⟩
    ⟨⟨declaredVM, []⟩⟩ ⟨[], none⟩ rfl rfl
  have ko := create_postcondition (failingRemote serverError500)
    ⟨⟨minimalSitePlan, []⟩⟩ ⟨[], none⟩ ⟨⟨declaredVM, []⟩⟩ ⟨[], none⟩ rfl rfl
  ⟨(let ⟨w, hw, hs, _⟩ := ok.1
    have hw' : w = minimalPayload := by
      have h2 : generateWritableSite minimalSitePlan minimalRemote []
          = ⟨[], Exit.returned minimalPayload⟩ := rfl
      have h3 := hw.symm.trans h2
      injection h3 with _ h4
      injection h4
    by subst hw'; exact hs (echoSite 7 minimalPayload) rfl),
   (let ⟨v, hv, hs, _⟩ := ok.2
    by subst hv; exact hs ⟨5, some "vm1", some ⟨2⟩,
      some ⟨some (goQuote "active"), some (goQuote "active")⟩⟩ rfl),
   (let ⟨w, hw, _, hf⟩ := ko.1
    have hw' : w = minimalPayload := by
      have h2 : generateWritableSite minimalSitePlan (failingRemote serverError500) []
          = ⟨[], Exit.returned minimalPayload⟩ := rfl
      have h3 := hw.symm.trans h2
      injection h3 with _ h4
      injection h4
    by subst hw'; exact hf none serverError500 rfl)⟩

/-- C14 (Update failure). With a configured client and no error on entry, `Update`
builds a payload `w` and issues the update call with it as its only remote call;
whenever that call returns an error, of whatever kind (the typed 404 included),
`Update` returns with an error in the diagnostics and the state as it was on
entry. -/
theorem update_failure_reports_error (api : NetBoxAPI)
    (request : UpdateRequest netboxSiteModel) (response : Response netboxSiteModel)
    (hentry : Diagnostics.HasError response.Diagnostics = false) :
    ∃ w, generateWritableSite request.State.data api
          (Diagnostics.Append response.Diagnostics request.State.diags)
        = ⟨[], Exit.returned w⟩
      ∧ ∀ res e, api.DcimSitesPartialUpdate request.State.data.ID.ValueInt64 w
          = ⟨res, some e⟩ →
        ∃ diags, resourceNetboxSitev6.Update ⟨some api⟩ request response
            = ⟨[RemoteCall.sitesUpdate request.State.data.ID.ValueInt64 w],
                Exit.returned ⟨diags, response.State⟩⟩
          ∧ Diagnostics.HasError diags = true := by
  refine ⟨_, generateWritableSite_eq _ api _, ?_⟩
  intro res e hcall
  refine ⟨Diagnostics.AddError
    (Diagnostics.Append response.Diagnostics request.State.diags)
    "Error while updating the Site" e.Error, ?_, Diagnostics.HasError_AddError _ _ _⟩
  simp [resourceNetboxSitev6.Update, hentry, generateWritableSite_eq, hcall]

/-- Witness for C14: the tracked site updated against a remote that answers 404 to
every call. -/
theorem update_failure_reports_error_witness :
    ∃ w diags, resourceNetboxSitev6.Update ⟨some (failingRemote notFound404)⟩
          ⟨⟨clearedSitePlan, []⟩, ⟨describedSiteState, []⟩⟩ ⟨[], some describedSiteState⟩
        = ⟨[RemoteCall.sitesUpdate 1 w],
            Exit.returned ⟨diags, some describedSiteState⟩⟩
      ∧ Diagnostics.HasError diags = true :=
  let ⟨w, _, hf⟩ := update_failure_reports_error (failingRemote notFound404)
    ⟨⟨clearedSitePlan, []⟩, ⟨describedSiteState, []⟩⟩ ⟨[], some describedSiteState⟩ rfl
  let ⟨diags, h1, h2⟩ := hf none notFound404 rfl
  ⟨w, diags, h1, h2⟩

/-- C15 (identifier immutability), each operation under its own premise only. A
site `Read` whose remote call succeeds writes a state whose `id` is the `id` of
the state in the request, whatever site the remote returned; a site `Update`
whose remote call succeeds writes a state whose `id` is the `id` of the state in
the request; a virtual machine `Read` whose remote call succeeds writes a state
whose `id` is the `id` of the state in the request. -/
theorem identifier_is_immutable (api : NetBoxAPI)
    (request : ReadRequest netboxSiteModel) (response : Response netboxSiteModel)
    (update : UpdateRequest netboxSiteModel) (updateResponse : Response netboxSiteModel)
    (vmRequest : ReadRequest netboxVirtualMachineModel)
    (vmResponse : Response netboxVirtualMachineModel) :
    (∀ (site : Site) (status : StatusLabel),
        Diagnostics.HasError response.Diagnostics = false →
        api.DcimSitesRead request.State.data.ID.ValueInt64 = CallResult.success site →
        site.Status = some status →
        ∃ st, (resourceNetboxSitev6.Read ⟨some api⟩ request response).exit
            = Exit.returned
                ⟨Diagnostics.Append response.Diagnostics request.State.diags, some st⟩
          ∧ st.ID = request.State.data.ID)
      ∧ (Diagnostics.HasError updateResponse.Diagnostics = false →
        (∀ w, generateWritableSite update.State.data api
              (Diagnostics.Append updateResponse.Diagnostics update.State.diags)
            = ⟨[], Exit.returned w⟩ →
          (api.DcimSitesPartialUpdate update.State.data.ID.ValueInt64 w).err = none) →
        ∃ st, (resourceNetboxSitev6.Update ⟨some api⟩ update updateResponse).exit
            = Exit.returned
                ⟨Diagnostics.Append updateResponse.Diagnostics update.State.diags, some st⟩
          ∧ st.ID = update.State.data.ID)
      ∧ (∀ (vm : VirtualMachineWithConfigContext) (vmStatus : StatusLabel),
        api.VirtualizationVirtualMachinesRead vmRequest.State.data.ID.ValueInt64
          = CallResult.success vm →
        vm.Status = some vmStatus →
        ∃ st, (resourceNetboxVirtualMachineV6.Read ⟨some api⟩ vmRequest vmResponse).exit
            = Exit.returned
                ⟨Diagnostics.Append vmResponse.Diagnostics vmRequest.State.diags, some st⟩
          ∧ st.ID = vmRequest.State.data.ID) := by
  refine ⟨?_, ?_, ?_⟩
  · intro site status hentry hcall hstatus
    rw [resourceNetboxSitev6.Read_success api request response site status hentry hcall
      hstatus]
    exact ⟨_, rfl, rfl⟩
  · intro hupdateEntry hupdate
    refine ⟨update.State.data, ?_, rfl⟩
    have hw := hupdate _ (generateWritableSite_eq _ api _)
    simp [resourceNetboxSitev6.Update, hupdateEntry, generateWritableSite_eq, hw]
  · intro vm vmStatus hvmCall hvmStatus
    rw [resourceNetboxVirtualMachineV6.Read_success_vm api vmRequest vmResponse vm vmStatus
      hvmCall hvmStatus]
    exact ⟨_, rfl, rfl⟩

/-- Witness for C15. The site tracked under identifier 1 is read and updated
against a remote whose site has identifier 7 and on which no virtual machine is
readable; the machine tracked under identifier 5 is read against a remote that
holds it. -/
theorem identifier_is_immutable_witness :
    (∃ st, (resourceNetboxSitev6.Read ⟨some vmGoneRemote⟩
          ⟨⟨describedSiteState, []⟩⟩ ⟨[], some describedSiteState⟩).exit
          = Exit.returned ⟨[], some st⟩
        ∧ st.ID = TFValue.known 1)
      ∧ (∃ st, (resourceNetboxSitev6.Update ⟨some vmGoneRemote⟩
          ⟨⟨clearedSitePlan, []⟩, ⟨describedSiteState, []⟩⟩
          ⟨[], some describedSiteState⟩).exit
          = Exit.returned ⟨[], some st⟩
        ∧ st.ID = TFValue.known 1)
      ∧ (∃ st, (resourceNetboxVirtualMachineV6.Read ⟨some minimalRemote⟩
          ⟨⟨trackedVM, []⟩⟩ ⟨[], some trackedVM⟩).exit
          = Exit.returned ⟨[], some st⟩
        ∧ st.ID = TFValue.known 5) :=
  have site := identifier_is_immutable vmGoneRemote
    ⟨⟨describedSiteState, []⟩⟩ ⟨[], some describedSiteState⟩
    ⟨⟨clearedSitePlan, []⟩, ⟨describedSiteState, []⟩⟩ ⟨[], some describedSiteState⟩
    ⟨⟨trackedVM, []⟩⟩ ⟨[], some trackedVM⟩
  have machine := identifier_is_immutable minimalRemote
    ⟨⟨describedSiteState, []⟩⟩ ⟨[], some describedSiteState⟩
    ⟨⟨clearedSitePlan, []⟩, ⟨describedSiteState, []⟩⟩ ⟨[], some describedSiteState⟩
    ⟨⟨trackedVM, []⟩⟩ ⟨[], some trackedVM⟩
  ⟨site.1 (echoSite 7 minimalPayload) ⟨some "active", some "active"⟩ rfl rfl rfl,
    site.2.1 rfl (fun _ _ => rfl),
    machine.2.2 remoteVM ⟨some "Active", some "active"⟩ rfl rfl⟩

/-! ## Schema validation -/

/-- A string has at least as many bytes as characters. -/
theorem length_le_utf8ByteSize (s : String) : s.length ≤ s.utf8ByteSize := by
  cases s with
  | mk cs =>
    simp only [String.length, String.utf8ByteSize_mk]
    induction cs with
    | nil => simp
    | cons c cs ih =>
      have hc := Char.utf8Size_pos c
      simp only [List.length_cons, String.utf8Len_cons]
      omega

/-- A string without characters has no bytes. -/
theorem utf8ByteSize_of_length_zero (s : String) (h : s.length = 0) :
    s.utf8ByteSize = 0 := by
  cases s with
  | mk cs =>
    have hcs : cs = [] := List.length_eq_zero.mp h
    subst hcs
    rfl

/-- A value whose length in characters is outside `lo..hi`, with `1 ≤ lo`, has a
length in bytes outside `lo..hi`. -/
theorem bytes_outside_of_length_outside (s : String) (lo hi : Nat) (hlo : lo = 1)
    (h : s.length < lo ∨ hi < s.length) :
    s.utf8ByteSize < lo ∨ s.utf8ByteSize > hi := by
  rcases h with h | h
  · left
    have h0 : s.length = 0 := by omega
    rw [utf8ByteSize_of_length_zero s h0]
    omega
  · right
    have := length_le_utf8ByteSize s
    omega

/-- `LengthBetween` reports an error on a known value whose byte length is outside
the bounds. -/
theorem StringValidator.LengthBetween_rejects (EqualFold : String → String → Bool)
    (name : String) (lo hi : Nat) (s : String)
    (h : s.utf8ByteSize < lo ∨ s.utf8ByteSize > hi) :
    Diagnostics.HasError
      ((StringValidator.LengthBetween lo hi).ValidateString EqualFold name
        (TFValue.known s))
      = true := by
  simp [StringValidator.ValidateString, h, Diagnostics.HasError]

/-- The accumulated diagnostics of a validation hold an error exactly when the
diagnostics of some attribute do. -/
theorem HasError_validation_fold (EqualFold : String → String → Bool)
    (config : netboxSiteModel) (schema : List (String × Attribute)) (acc : Diagnostics) :
    Diagnostics.HasError
        (schema.foldl
          (fun diags entry =>
            Diagnostics.Append diags (entry.2.Validate EqualFold config entry.1)) acc)
      = (Diagnostics.HasError acc
          || schema.any
            (fun entry => Diagnostics.HasError (entry.2.Validate EqualFold config entry.1)))
    := by
  induction schema generalizing acc with
  | nil => simp
  | cons entry rest ih =>
    simp only [List.foldl_cons, List.any_cons]
    rw [ih, Diagnostics.HasError_Append, Bool.or_assoc]

/-- Validation rejects a declaration as soon as one attribute of the schema has an
error. -/
theorem ValidateResourceConfig_rejects (EqualFold : String → String → Bool)
    (schema : List (String × Attribute))
    (config : netboxSiteModel) (name : String) (a : Attribute)
    (hmem : (name, a) ∈ schema)
    (herr : Diagnostics.HasError (a.Validate EqualFold config name) = true) :
    Diagnostics.HasError (ValidateResourceConfig EqualFold schema config) = true := by
  unfold ValidateResourceConfig
  rw [HasError_validation_fold]
  simp only [List.any_eq_true, Bool.or_eq_true]
  exact Or.inr ⟨(name, a), hmem, herr⟩

/-- `Create` of a site returns at once, without a remote call and without touching
the state, when the diagnostics hold an error after decoding the plan. -/
theorem resourceNetboxSitev6.Create_stops_on_error (r : resourceNetboxSitev6)
    (request : CreateRequest netboxSiteModel) (response : Response netboxSiteModel)
    (herr : Diagnostics.HasError
      (Diagnostics.Append response.Diagnostics request.Plan.diags) = true) :
    resourceNetboxSitev6.Create r request response
      = ⟨[], Exit.returned
          ⟨Diagnostics.Append response.Diagnostics request.Plan.diags, response.State⟩⟩ := by
  simp [resourceNetboxSitev6.Create, herr]

/-- C19 (validation precedes side effects). For every declaration whose slug is
the empty string or longer than 100 characters, or whose description is set with
a length outside 1..200, or whose facility is set with a length outside 1..50,
validation against the schema of the site resource reports an error (whatever the
status options and whatever the library's case folding `EqualFold`); whenever the
diagnostics hold an error after decoding the plan, `Create` returns without any
remote call and leaves the state untouched; in particular `Create` entered with
the diagnostics of the failed validation issues no remote call. -/
theorem validation_precedes_side_effects (EqualFold : String → String → Bool)
    (statusOptions : List String) (config : netboxSiteModel)
    (hbad : (∃ s, config.Slug = TFValue.known s ∧ (s.length = 0 ∨ 100 < s.length))
      ∨ (∃ s, config.Description = TFValue.known s ∧ (s.length < 1 ∨ 200 < s.length))
      ∨ (∃ s, config.Facility = TFValue.known s ∧ (s.length < 1 ∨ 50 < s.length))) :
    Diagnostics.HasError
        (ValidateResourceConfig EqualFold (resourceNetboxSitev6.Schema statusOptions) config) = true
      ∧ (∀ (r : resourceNetboxSitev6) (request : CreateRequest netboxSiteModel)
          (response : Response netboxSiteModel),
          Diagnostics.HasError
            (Diagnostics.Append response.Diagnostics request.Plan.diags) = true →
          resourceNetboxSitev6.Create r request response
            = ⟨[], Exit.returned
                ⟨Diagnostics.Append response.Diagnostics request.Plan.diags,
                  response.State⟩⟩)
      ∧ (∀ (r : resourceNetboxSitev6) (request : CreateRequest netboxSiteModel)
          (state : Option netboxSiteModel),
          (resourceNetboxSitev6.Create r request
            ⟨ValidateResourceConfig EqualFold (resourceNetboxSitev6.Schema statusOptions) config,
              state⟩).calls = []) := by
  have hreject : Diagnostics.HasError
      (ValidateResourceConfig EqualFold (resourceNetboxSitev6.Schema statusOptions) config) = true := by
    rcases hbad with ⟨s, hs, hlen⟩ | ⟨s, hs, hlen⟩ | ⟨s, hs, hlen⟩
    · refine ValidateResourceConfig_rejects EqualFold _ config "slug"
        ⟨AttributeType.String, true, false, false,
          [StringValidator.LengthBetween 1 100], none⟩
        (by simp [resourceNetboxSitev6.Schema]) ?_
      have hval : config.stringAttribute "slug" = TFValue.known s := hs
      have hlen' : s.length < 1 ∨ 100 < s.length := by omega
      simp only [Attribute.Validate, List.foldr, hval, Diagnostics.HasError_concat,
        List.append_nil]
      rw [StringValidator.LengthBetween_rejects EqualFold "slug" 1 100 s
        (bytes_outside_of_length_outside s 1 100 rfl hlen')]
      exact Bool.or_true _
    · refine ValidateResourceConfig_rejects EqualFold _ config "description"
        ⟨AttributeType.String, false, true, false,
          [StringValidator.LengthBetween 1 200], none⟩
        (by simp [resourceNetboxSitev6.Schema]) ?_
      have hval : config.stringAttribute "description" = TFValue.known s := hs
      simp only [Attribute.Validate, List.foldr, hval, Diagnostics.HasError_concat,
        List.append_nil]
      rw [StringValidator.LengthBetween_rejects EqualFold "description" 1 200 s
        (bytes_outside_of_length_outside s 1 200 rfl hlen)]
      exact Bool.or_true _
    · refine ValidateResourceConfig_rejects EqualFold _ config "facility"
        ⟨AttributeType.String, false, true, false,
          [StringValidator.LengthBetween 1 50], none⟩
        (by simp [resourceNetboxSitev6.Schema]) ?_
      have hval : config.stringAttribute "facility" = TFValue.known s := hs
      simp only [Attribute.Validate, List.foldr, hval, Diagnostics.HasError_concat,
        List.append_nil]
      rw [StringValidator.LengthBetween_rejects EqualFold "facility" 1 50 s
        (bytes_outside_of_length_outside s 1 50 rfl hlen)]
      exact Bool.or_true _
  refine ⟨hreject, fun r request response herr =>
    resourceNetboxSitev6.Create_stops_on_error r request response herr, ?_⟩
  intro r request state
  have herr : Diagnostics.HasError
      (Diagnostics.Append
        (ValidateResourceConfig EqualFold (resourceNetboxSitev6.Schema statusOptions) config)
        request.Plan.diags) = true := by
    rw [Diagnostics.HasError_Append, hreject]
    rfl
  exact congrArg Run.calls
    (resourceNetboxSitev6.Create_stops_on_error r request
      ⟨ValidateResourceConfig EqualFold (resourceNetboxSitev6.Schema statusOptions) config, state⟩
      herr)

/-- Witness for C19: the declaration with an empty slug is rejected, and `Create`
entered with the diagnostics of that validation issues no remote call. -/
theorem validation_precedes_side_effects_witness :
    Diagnostics.HasError
        (ValidateResourceConfig asciiEqualFold (resourceNetboxSitev6.Schema sampleStatusOptions)
          emptySlugPlan) = true
      ∧ (resourceNetboxSitev6.Create ⟨some minimalRemote⟩ ⟨⟨emptySlugPlan, []⟩⟩
          ⟨ValidateResourceConfig asciiEqualFold (resourceNetboxSitev6.Schema sampleStatusOptions)
            emptySlugPlan, none⟩).calls = [] :=
  have h := validation_precedes_side_effects asciiEqualFold sampleStatusOptions emptySlugPlan
    (Or.inl ⟨"", rfl, Or.inl rfl⟩)
  ⟨h.1, h.2.2 ⟨some minimalRemote⟩ ⟨⟨emptySlugPlan, []⟩⟩ none⟩

/-! ## Provider configuration -/

/-- Membership in the result of `Append`. -/
theorem Diagnostics.mem_Append (a : Diagnostics) (ins : List Diagnostic) (d : Diagnostic) :
    d ∈ Diagnostics.Append a ins ↔ d ∈ a ∨ d ∈ ins := by
  induction ins generalizing a with
  | nil => simp [Diagnostics.Append]
  | cons x rest ih =>
    have step : Diagnostics.Append a (x :: rest)
        = Diagnostics.Append (if x ∈ a then a else a ++ [x]) rest := rfl
    rw [step, ih]
    by_cases hx : x ∈ a
    · simp only [hx, if_true, List.mem_cons]
      constructor
      · rintro (h | h)
        · exact Or.inl h
        · exact Or.inr (Or.inr h)
      · rintro (h | h | h)
        · exact Or.inl h
        · exact Or.inl (h ▸ hx)
        · exact Or.inr h
    · simp only [hx, if_false, List.mem_append, List.mem_singleton, List.mem_cons]
      tauto

/-- Membership in the result of `AddError`. -/
theorem Diagnostics.mem_AddError (a : Diagnostics) (summary detail : String)
    (d : Diagnostic) :
    d ∈ Diagnostics.AddError a summary detail
      ↔ d ∈ a ∨ d = ⟨Severity.error, summary, detail⟩ := by
  simp [Diagnostics.AddError, Diagnostics.mem_Append]

/-- Membership in the result of `AddWarning`. -/
theorem Diagnostics.mem_AddWarning (a : Diagnostics) (summary detail : String)
    (d : Diagnostic) :
    d ∈ Diagnostics.AddWarning a summary detail
      ↔ d ∈ a ∨ d = ⟨Severity.warning, summary, detail⟩ := by
  simp [Diagnostics.AddWarning, Diagnostics.mem_Append]

/-- At the point where the `Config` is built, the diagnostics hold the missing
token error exactly when the effective token is empty, provided they did not hold
it before. -/
theorem netboxProvider.Configure.diagnostics_token (getenv : String → String)
    (data : netboxProviderModel) (diags : Diagnostics)
    (h0 : missingTokenDiagnostic ∉ diags) :
    missingTokenDiagnostic ∈ netboxProvider.Configure.diagnostics getenv data diags
      ↔ netboxProvider.Configure.apiToken getenv data = "" := by
  have hne1 : missingTokenDiagnostic
      ≠ ⟨Severity.error, "Invalid Request Timeout environment variable.", "TODO"⟩ := by
    decide
  have hne2 : missingTokenDiagnostic
      ≠ ⟨Severity.error, "Missing server URL configuration.", "TODO details"⟩ := by decide
  have hself : missingTokenDiagnostic
      = ⟨Severity.error, "Missing API Token Configuration", "TODO DETAIL"⟩ := rfl
  simp only [netboxProvider.Configure.diagnostics]
  split_ifs <;> simp_all [Diagnostics.mem_AddError]

/-- The same for the missing server URL error. -/
theorem netboxProvider.Configure.diagnostics_serverUrl (getenv : String → String)
    (data : netboxProviderModel) (diags : Diagnostics)
    (h0 : missingServerUrlDiagnostic ∉ diags) :
    missingServerUrlDiagnostic ∈ netboxProvider.Configure.diagnostics getenv data diags
      ↔ netboxProvider.Configure.serverUrl getenv data = "" := by
  have hne1 : missingServerUrlDiagnostic
      ≠ ⟨Severity.error, "Invalid Request Timeout environment variable.", "TODO"⟩ := by
    decide
  have hne2 : missingServerUrlDiagnostic
      ≠ ⟨Severity.error, "Missing API Token Configuration", "TODO DETAIL"⟩ := by decide
  have hself : missingServerUrlDiagnostic
      = ⟨Severity.error, "Missing server URL configuration.", "TODO details"⟩ := rfl
  simp only [netboxProvider.Configure.diagnostics]
  split_ifs <;> simp_all [Diagnostics.mem_AddError]

/-- What `Configure` adds after the `Config` is built is an error about the client
or the status call, or the version warning: a diagnostic that is none of these is
in the response on return exactly when it was there when the `Config` was
built. -/
theorem netboxProvider.Configure.exit_mem (getenv : String → String)
    (Client : Config → Option NetBoxAPI × Option GoError) (p : netboxProvider)
    (request : ConfigureRequest) (response resp : ConfigureResponse) (d : Diagnostic)
    (hclient : ∀ x, d ≠ ⟨Severity.error, "Error creating netbox client.", x⟩)
    (hstatus : ∀ x, d ≠ ⟨Severity.error, "Error getting netbox status.", x⟩)
    (hwarning : ∀ x y, d ≠ ⟨Severity.warning, x, y⟩)
    (hexit : (netboxProvider.Configure getenv Client p request response).exit
      = Exit.returned resp) :
    d ∈ resp.Diagnostics
      ↔ d ∈ netboxProvider.Configure.diagnostics getenv request.Config.data
          (Diagnostics.Append response.Diagnostics request.Config.diags) := by
  simp only [netboxProvider.Configure] at hexit
  generalize netboxProvider.Configure.diagnostics getenv request.Config.data
    (Diagnostics.Append response.Diagnostics request.Config.diags) = D at hexit ⊢
  generalize Client _ = made at hexit
  split at hexit
  · injection hexit with hexit
    subst hexit
    simp [Diagnostics.mem_AddError, hclient]
  · split at hexit
    · split at hexit
      · exact absurd hexit (by simp)
      · split at hexit
        · injection hexit with hexit
          subst hexit
          simp [Diagnostics.mem_AddError, hstatus]
        · split at hexit
          · exact absurd hexit (by simp)
          · exact absurd hexit (by simp)
          · exact absurd hexit (by simp)
          · injection hexit with hexit
            subst hexit
            simp only []
            split_ifs <;> simp [Diagnostics.mem_AddWarning, hwarning]
    · injection hexit with hexit
      subst hexit
      rfl

/-- A diagnostic with another summary is another diagnostic. -/
theorem Diagnostic.ne_of_summary (d : Diagnostic) (severity : Severity)
    (summary detail : String) (h : d.summary ≠ summary) :
    d ≠ ⟨severity, summary, detail⟩ :=
  fun e => h (congrArg Diagnostic.summary e)

/-- A diagnostic with another severity is another diagnostic. -/
theorem Diagnostic.ne_of_severity (d : Diagnostic) (severity : Severity)
    (summary detail : String) (h : d.severity ≠ severity) :
    d ≠ ⟨severity, summary, detail⟩ :=
  fun e => h (congrArg Diagnostic.severity e)

/-- The `Config` that `Configure` builds, on every path. -/
theorem netboxProvider.Configure.config_eq (getenv : String → String)
    (Client : Config → Option NetBoxAPI × Option GoError) (p : netboxProvider)
    (request : ConfigureRequest) (response : ConfigureResponse) :
    (netboxProvider.Configure getenv Client p request response).config
      = { APIToken := netboxProvider.Configure.apiToken getenv request.Config.data
          ServerURL := netboxProvider.Configure.serverUrl getenv request.Config.data
          RequestTimeout :=
            netboxProvider.Configure.requestTimeout getenv request.Config.data } := by
  simp only [netboxProvider.Configure]
  generalize Client _ = made
  split
  · rfl
  · split
    · split
      · rfl
      · split
        · rfl
        · split <;> rfl
    · rfl

/-- `Configure` returns whenever building the client fails or the version check
is skipped. -/
theorem netboxProvider.Configure.returns (getenv : String → String)
    (Client : Config → Option NetBoxAPI × Option GoError) (p : netboxProvider)
    (request : ConfigureRequest) (response : ConfigureResponse)
    (h : (Client (netboxProvider.Configure getenv Client p request response).config).2
        ≠ none
      ∨ request.Config.data.SkipVersionCheck.ValueBool = true) :
    ∃ resp, (netboxProvider.Configure getenv Client p request response).exit
      = Exit.returned resp := by
  rw [netboxProvider.Configure.config_eq] at h
  simp only [netboxProvider.Configure]
  generalize Client _ = made at h ⊢
  rcases made with ⟨client, err⟩
  cases err with
  | some e => exact ⟨_, rfl⟩
  | none =>
    rcases h with h | h
    · exact absurd rfl h
    · simp only [h]
      exact ⟨_, rfl⟩

/-- `Configure` returns exactly on these paths: building the client fails; or the
version check is skipped; or a client is built and the status call either fails
or answers with a map that holds a string under `netbox-version`. On every other
path it panics. -/
theorem netboxProvider.Configure.returns_iff (getenv : String → String)
    (Client : Config → Option NetBoxAPI × Option GoError) (p : netboxProvider)
    (request : ConfigureRequest) (response : ConfigureResponse) :
    (∃ resp, (netboxProvider.Configure getenv Client p request response).exit
        = Exit.returned resp)
      ↔ ((Client (netboxProvider.Configure getenv Client p request response).config).2
            ≠ none
          ∨ request.Config.data.SkipVersionCheck.ValueBool = true
          ∨ ∃ api,
              (Client (netboxProvider.Configure getenv Client p request response).config).1
                = some api
              ∧ (api.StatusList.err ≠ none
                ∨ ∃ v, api.StatusList.res = some (StatusPayload.map (some v)))) := by
  rw [netboxProvider.Configure.config_eq]
  simp only [netboxProvider.Configure]
  generalize Client _ = made
  rcases made with ⟨client, err⟩
  cases err with
  | some e => simp
  | none =>
    cases hskip : request.Config.data.SkipVersionCheck.ValueBool with
    | true => simp
    | false =>
      cases client with
      | none => simp
      | some api =>
        rcases hst : api.StatusList with ⟨res, serr⟩
        cases serr with
        | some e => simp [hst]
        | none =>
          cases res with
          | none => simp [hst]
          | some payload =>
            cases payload with
            | notAMap => simp [hst]
            | map version =>
              cases version with
              | none => simp [hst]
              | some v => simp [hst]

/-- When the effective token is empty, the diagnostics hold the missing token
error at the point where the `Config` is built, whatever they held before. -/
theorem netboxProvider.Configure.diagnostics_token_of_empty (getenv : String → String)
    (data : netboxProviderModel) (diags : Diagnostics)
    (h : netboxProvider.Configure.apiToken getenv data = "") :
    missingTokenDiagnostic ∈ netboxProvider.Configure.diagnostics getenv data diags := by
  have hself : missingTokenDiagnostic
      = ⟨Severity.error, "Missing API Token Configuration", "TODO DETAIL"⟩ := rfl
  simp only [netboxProvider.Configure.diagnostics, h, if_true]
  split_ifs <;> simp [Diagnostics.mem_AddError, hself]

/-- When the effective server URL is empty, the diagnostics hold the missing
server URL error at the point where the `Config` is built. -/
theorem netboxProvider.Configure.diagnostics_serverUrl_of_empty
    (getenv : String → String) (data : netboxProviderModel) (diags : Diagnostics)
    (h : netboxProvider.Configure.serverUrl getenv data = "") :
    missingServerUrlDiagnostic
      ∈ netboxProvider.Configure.diagnostics getenv data diags := by
  have hself : missingServerUrlDiagnostic
      = ⟨Severity.error, "Missing server URL configuration.", "TODO details"⟩ := rfl
  simp only [netboxProvider.Configure.diagnostics, h, if_true]
  simp [Diagnostics.mem_AddError, hself]

/-- C20 (provider credential resolution). For every environment, provider
configuration and `Client()`: the API token of the `Config` that `Configure`
builds is the configured `api_token` when that is not null and the value of
`NETBOX_API_TOKEN` otherwise, and likewise the server URL with `server_url` and
`NETBOX_SERVER_URL`. `Configure` returns exactly when building the client fails,
or the version check is skipped, or a client is built and the status call fails
or answers with a version string; on the other paths it panics. Whenever it
returns: if the effective token is the empty string the response holds the error
`Missing API Token Configuration`, and if the diagnostics did not hold that error
after decoding the configuration the response holds it exactly when the token is
empty; the same for `Missing server URL configuration.` and the server URL, each
under its own premise. -/
theorem credential_resolution (getenv : String → String)
    (Client : Config → Option NetBoxAPI × Option GoError) (p : netboxProvider)
    (request : ConfigureRequest) (response : ConfigureResponse) :
    (netboxProvider.Configure getenv Client p request response).config.APIToken
        = (if request.Config.data.ApiToken.IsNull then getenv "NETBOX_API_TOKEN"
            else request.Config.data.ApiToken.ValueString)
      ∧ (netboxProvider.Configure getenv Client p request response).config.ServerURL
        = (if request.Config.data.ServerUrl.IsNull then getenv "NETBOX_SERVER_URL"
            else request.Config.data.ServerUrl.ValueString)
      ∧ (∀ resp, (netboxProvider.Configure getenv Client p request response).exit
            = Exit.returned resp →
          ((netboxProvider.Configure getenv Client p request response).config.APIToken
              = "" → missingTokenDiagnostic ∈ resp.Diagnostics)
          ∧ (missingTokenDiagnostic ∉
              Diagnostics.Append response.Diagnostics request.Config.diags →
            (missingTokenDiagnostic ∈ resp.Diagnostics
              ↔ (netboxProvider.Configure getenv Client p request response).config.APIToken
                = ""))
          ∧ ((netboxProvider.Configure getenv Client p request response).config.ServerURL
              = "" → missingServerUrlDiagnostic ∈ resp.Diagnostics)
          ∧ (missingServerUrlDiagnostic ∉
              Diagnostics.Append response.Diagnostics request.Config.diags →
            (missingServerUrlDiagnostic ∈ resp.Diagnostics
              ↔ (netboxProvider.Configure getenv Client p request response).config.ServerURL
                = "")))
      ∧ ((∃ resp, (netboxProvider.Configure getenv Client p request response).exit
            = Exit.returned resp)
        ↔ ((Client (netboxProvider.Configure getenv Client p request response).config).2
              ≠ none
            ∨ request.Config.data.SkipVersionCheck.ValueBool = true
            ∨ ∃ api,
                (Client
                  (netboxProvider.Configure getenv Client p request response).config).1
                  = some api
                ∧ (api.StatusList.err ≠ none
                  ∨ ∃ v, api.StatusList.res = some (StatusPayload.map (some v))))) := by
  refine ⟨?_, ?_, ?_,
    netboxProvider.Configure.returns_iff getenv Client p request response⟩
  · rw [netboxProvider.Configure.config_eq]
    simp only [netboxProvider.Configure.apiToken]
    cases request.Config.data.ApiToken <;> rfl
  · rw [netboxProvider.Configure.config_eq]
    simp only [netboxProvider.Configure.serverUrl]
    cases request.Config.data.ServerUrl <;> rfl
  · intro resp hexit
    have htok := netboxProvider.Configure.exit_mem getenv Client p request response resp
      missingTokenDiagnostic
      (fun x => Diagnostic.ne_of_summary _ _ _ x (by decide))
      (fun x => Diagnostic.ne_of_summary _ _ _ x (by decide))
      (fun x y => Diagnostic.ne_of_severity _ _ x y (by decide)) hexit
    have hsrv := netboxProvider.Configure.exit_mem getenv Client p request response resp
      missingServerUrlDiagnostic
      (fun x => Diagnostic.ne_of_summary _ _ _ x (by decide))
      (fun x => Diagnostic.ne_of_summary _ _ _ x (by decide))
      (fun x y => Diagnostic.ne_of_severity _ _ x y (by decide)) hexit
    rw [netboxProvider.Configure.config_eq]
    refine ⟨?_, ?_, ?_, ?_⟩
    · intro hempty
      exact htok.mpr
        (netboxProvider.Configure.diagnostics_token_of_empty getenv _ _ hempty)
    · intro htoken
      rw [htok]
      exact netboxProvider.Configure.diagnostics_token getenv _ _ htoken
    · intro hempty
      exact hsrv.mpr
        (netboxProvider.Configure.diagnostics_serverUrl_of_empty getenv _ _ hempty)
    · intro hurl
      rw [hsrv]
      exact netboxProvider.Configure.diagnostics_serverUrl getenv _ _ hurl

/-- Witness for C20, on two paths. With nothing configured but
`skip_version_check` and an environment that only sets `NETBOX_API_TOKEN`: the
token of the environment is used, the server URL is empty, and `Configure`
returns a response that holds the missing server URL error and not the missing
token error. With nothing configured at all and an empty environment, a client
built and the version check made against a remote that answers the status call:
`Configure` returns a response that holds both errors. -/
theorem credential_resolution_witness :
    (netboxProvider.Configure tokenOnlyEnv alwaysClient ⟨none⟩
        ⟨⟨skipCheckProviderConfig, []⟩⟩ ⟨[], none, none⟩).config.APIToken
        = "0123456789abcdef"
      ∧ (netboxProvider.Configure tokenOnlyEnv alwaysClient ⟨none⟩
        ⟨⟨skipCheckProviderConfig, []⟩⟩ ⟨[], none, none⟩).config.ServerURL = ""
      ∧ (∃ resp, (netboxProvider.Configure tokenOnlyEnv alwaysClient ⟨none⟩
          ⟨⟨skipCheckProviderConfig, []⟩⟩ ⟨[], none, none⟩).exit = Exit.returned resp
        ∧ missingServerUrlDiagnostic ∈ resp.Diagnostics
        ∧ missingTokenDiagnostic ∉ resp.Diagnostics)
      ∧ (∃ resp, (netboxProvider.Configure emptyEnv alwaysClient ⟨none⟩
          ⟨⟨emptyProviderConfig, []⟩⟩ ⟨[], none, none⟩).exit = Exit.returned resp
        ∧ missingTokenDiagnostic ∈ resp.Diagnostics
        ∧ missingServerUrlDiagnostic ∈ resp.Diagnostics) :=
  have h := credential_resolution tokenOnlyEnv alwaysClient ⟨none⟩
    ⟨⟨skipCheckProviderConfig, []⟩⟩ ⟨[], none, none⟩
  have g := credential_resolution emptyEnv alwaysClient ⟨none⟩
    ⟨⟨emptyProviderConfig, []⟩⟩ ⟨[], none, none⟩
  ⟨h.1, h.2.1,
    (let ⟨resp, hexit⟩ := h.2.2.2.mpr (Or.inr (Or.inl rfl))
     ⟨resp, hexit, (h.2.2.1 resp hexit).2.2.1 h.2.1,
       fun hmem => absurd
         (h.1.symm.trans
           (((h.2.2.1 resp hexit).2.1 (by simp [Diagnostics.Append])).mp hmem))
         (by decide)⟩),
    (let ⟨resp, hexit⟩ := g.2.2.2.mpr
      (Or.inr (Or.inr ⟨minimalRemote, rfl, Or.inr ⟨"4.0.10", rfl⟩⟩))
     ⟨resp, hexit, (g.2.2.1 resp hexit).1 g.1, (g.2.2.1 resp hexit).2.2.1 g.2.1⟩)⟩

end Netbox
